import Mathlib

/-!
# Verification of the mobile element locator-generation core

Shallow embedding of the locator-generation subsystem of the WebDriverIO MCP
server (`src/locators/{xml-parsing,locator-generation,element-filter}.ts` and
`src/locators/generate-all-locators.ts`), together with theorems settling the
frozen claims about it.

Modelling conventions:
* XML documents are modelled as element-only rooted trees (`XNode`); the
  accessibility dumps handled by the code contain no text nodes, and every
  child-walking routine in the source filters to `nodeType === 1` anyway.
* A DOM `Document` is an `XDoc` (an optional document element); a DOM node
  inside a document is addressed by its element-child index path
  (`List Nat`), so `isSameNode` becomes path equality.
* The two external libraries the core calls into are parameters of the
  embedding: the `@xmldom/xmldom` DOM parser becomes a
  `parse : String → Option XDoc` argument (`none` models both a thrown
  exception and a reported `parsererror`), and the `xpath` library's
  `xpath.select` becomes an `ev : XPathEval` argument.  A reference
  evaluator `evalXPRef` implementing standard XPath semantics for the
  query shapes the code generates (`/hierarchy/*`, `//*[@a="v"]`, `//tag`,
  `//tag[@a="v" and ...]`) is used for concrete scenarios.
* JavaScript numbers that can be `NaN` are modelled as `Option Int`
  (`none` = `NaN`), with comparison operators that are false on `NaN`.
* `parseInt(s, 10)` / `Number(s)` are modelled on the digit-string inputs
  the code exercises (optional sign followed by digits).
-/

/-- JS-style comparison `a <= b` on possibly-NaN numbers: false if either is NaN. -/
def jsLe : Option Int → Option Int → Bool
  | some a, some b => a ≤ b
  | _, _ => false

/-- JS-style comparison `a >= b`: false if either operand is NaN. -/
def jsGe : Option Int → Option Int → Bool
  | some a, some b => b ≤ a
  | _, _ => false

/-- JS-style comparison `a > b`: false if either operand is NaN. -/
def jsGt : Option Int → Option Int → Bool
  | some a, some b => b < a
  | _, _ => false

/-- JS-style comparison `a < b`: false if either operand is NaN. -/
def jsLt : Option Int → Option Int → Bool
  | some a, some b => a < b
  | _, _ => false

/-- JS addition on possibly-NaN numbers: NaN propagates. -/
def jsAdd : Option Int → Option Int → Option Int
  | some a, some b => some (a + b)
  | _, _ => none

/-- Digits of a decimal numeral folded into a natural number. -/
def digitsToNat (ds : List Char) : Nat :=
  ds.foldl (fun a c => a * 10 + (c.toNat - 48)) 0

/-- Model of JS `parseInt(s, 10)` on the inputs the code exercises:
an optional leading minus sign followed by a run of decimal digits
(the numeral prefix is taken, as `parseInt` does); `none` models `NaN`.
`jsParseIntDigits` parses the digit run itself. -/
def jsParseIntDigits (cs : List Char) : Option Int :=
  let ds := cs.takeWhile Char.isDigit
  if ds.isEmpty then none else some (digitsToNat ds : Nat)

/-- Model of JS `parseInt(s, 10)` on the inputs the code exercises:
an optional leading minus sign followed by a run of decimal digits
(the numeral prefix is taken, as `parseInt` does); `none` models `NaN`. -/
def jsParseInt (s : String) : Option Int :=
  match s.data with
  | '-' :: rest => (jsParseIntDigits rest).map (fun n => -n)
  | cs => jsParseIntDigits cs

/-- Model of JS `Number(s)` restricted to child-index path segments:
`''` is 0, a nonempty digit string is its value, anything else is `NaN`. -/
def jsNumberNat (s : String) : Option Nat :=
  if s = "" then some 0
  else if s.data.all Char.isDigit then some (digitsToNat s.data)
  else none


/-- Match a literal character sequence at the head of the input (returns
the remainder on success). -/
def matchLit : List Char → List Char → Option (List Char)
  | [], rest => some rest
  | _, [] => none
  | l :: ls, c :: cs => if c == l then matchLit ls cs else none

/-- Does the pattern occur anywhere in the text? -/
def scanSub (pat : List Char) : List Char → Bool
  | [] => (matchLit pat []).isSome
  | c :: rest => (matchLit pat (c :: rest)).isSome || scanSub pat rest

/-- JS `String.prototype.includes`. -/
def jsIncludes (s pat : String) : Bool :=
  scanSub pat.data s.data

/-- Splitting loop: accumulates the current segment (reversed) and splits
at each non-overlapping occurrence of the separator. -/
def splitAux (sep : List Char) : List Char → List Char → Nat → List (List Char)
  | cur, [], _ => [cur.reverse]
  | cur, c :: rest, 0 => [cur.reverse ++ (c :: rest)]
  | cur, c :: rest, fuel + 1 =>
    match matchLit sep (c :: rest) with
    | some r => cur.reverse :: splitAux sep [] r fuel
    | none => splitAux sep (c :: cur) rest fuel

/-- JS `String.prototype.split` on a nonempty literal separator (also the
behaviour of Lean's `String.splitOn` there). -/
def strSplitOn (s sep : String) : List String :=
  if sep.data.isEmpty then [s]
  else (splitAux sep.data [] s.data s.data.length).map (fun cs => (⟨cs⟩ : String))

/-- Replacement loop: non-overlapping left-to-right occurrences. -/
def replaceAux (pat repl : List Char) : Nat → List Char → List Char
  | _, [] => []
  | 0, cs => cs
  | fuel + 1, c :: rest =>
    match matchLit pat (c :: rest) with
    | some r => repl ++ replaceAux pat repl fuel r
    | none => c :: replaceAux pat repl fuel rest

/-- JS `String.prototype.replace` with a global literal pattern
(nonempty in every use in the source). -/
def strReplace (s pat repl : String) : String :=
  if pat.data.isEmpty then s
  else ⟨replaceAux pat.data repl.data s.data.length s.data⟩

/-- JS `String.prototype.trim` (the whitespace the attribute values
exercise: space, tab, CR, LF). -/
def strTrim (s : String) : String :=
  ⟨((s.data.dropWhile Char.isWhitespace).reverse.dropWhile Char.isWhitespace).reverse⟩

/-- `String.toLowerCase` (ASCII, as the automation names exercise). -/
def strToLower (s : String) : String :=
  ⟨s.data.map Char.toLower⟩

/-- `String.prototype.startsWith`. -/
def strStartsWith (s pre : String) : Bool :=
  (matchLit pre.data s.data).isSome

/-- `String.prototype.endsWith`. -/
def strEndsWith (s suf : String) : Bool :=
  (matchLit suf.data.reverse s.data.reverse).isSome

/-- Does the string contain the character? -/
def strContainsChar (s : String) (c : Char) : Bool :=
  s.data.contains c

/-- Drop the first `n` characters. -/
def strDrop (s : String) (n : Nat) : String :=
  ⟨s.data.drop n⟩

/-- Drop the last `n` characters. -/
def strDropRight (s : String) (n : Nat) : String :=
  ⟨s.data.take (s.data.length - n)⟩

/-- JS string truthiness: a string is truthy iff nonempty. -/
def strTruthy (s : String) : Bool := s != ""

/-- Truthiness of a nullable string (`undefined`/`null`/`''` are falsy). -/
def optTruthy : Option String → Bool
  | some s => strTruthy s
  | none => false

/-! ## Document model -/

/-- An XML element: tag name, attribute list and element children.
Models the element nodes of the DOM produced by the external parser. -/
inductive XNode : Type where
  | node : String → List (String × String) → List XNode → XNode
deriving Repr

/-- Tag name (DOM `nodeName`) of an element. -/
def XNode.tagName : XNode → String
  | .node t _ _ => t

/-- Attribute list of an element, in document order. -/
def XNode.attrList : XNode → List (String × String)
  | .node _ a _ => a

/-- Element children of an element, in document order. -/
def XNode.children : XNode → List XNode
  | .node _ _ c => c

/-- DOM `getAttribute`: the attribute's value, or `none` when absent. -/
def XNode.getAttr? (n : XNode) (name : String) : Option String :=
  (n.attrList.find? (fun p => p.1 == name)).map Prod.snd

/-- A DOM `Document`: its document element, when it has one. -/
structure XDoc : Type where
  root : Option XNode
deriving Repr

/-- Resolve an element-child index path inside a subtree. -/
def subtreeAt : XNode → List Nat → Option XNode
  | n, [] => some n
  | n, i :: rest =>
    match n.children.get? i with
    | some c => subtreeAt c rest
    | none => none

/-- Resolve a node reference (path relative to the document element). -/
def resolveNode (d : XDoc) (p : List Nat) : Option XNode :=
  match d.root with
  | some r => subtreeAt r p
  | none => none

mutual

/-- Pre-order list of all (path, element) pairs of a subtree. -/
def preorderFrom : List Nat → XNode → List (List Nat × XNode)
  | p, .node t a cs => (p, .node t a cs) :: preorderChildren p 0 cs

/-- Pre-order lists of the subtrees of a child list (`i` = index of the first child). -/
def preorderChildren : List Nat → Nat → List XNode → List (List Nat × XNode)
  | _, _, [] => []
  | p, i, c :: cs => preorderFrom (p ++ [i]) c ++ preorderChildren p (i + 1) cs

end

/-- All (path, element) pairs of a document, in document order. -/
def docNodes (d : XDoc) : List (List Nat × XNode) :=
  match d.root with
  | some r => preorderFrom [] r
  | none => []

/-! ## Model of the external `xpath` library

`xpath.select` is external to the repository; the repository functions take
it as the parameter `ev` below.  `evalXPRef` is a reference implementation
of standard XPath semantics for the expression shapes that the locator code
generates, used to instantiate concrete scenarios. -/

/-- Type of the external XPath evaluation function (`xpath.select` applied
to a document): an expression evaluates to a list of node references. -/
def XPathEval : Type := XDoc → String → List (List Nat)

/-- Parse and evaluate a single `@attr=<quoted>` predicate condition. -/
def condHolds (n : XNode) (cond : String) : Bool :=
  match cond.toList with
  | '@' :: rest =>
    let s : String := ⟨rest⟩
    match strSplitOn s "=" with
    | [attr, quoted] =>
      let qs := quoted.toList
      (match qs with
       | '"' :: more =>
         (match more.reverse with
          | '"' :: mid => n.getAttr? attr == some ⟨mid.reverse⟩
          | _ => false)
       | '\'' :: more =>
         (match more.reverse with
          | '\'' :: mid => n.getAttr? attr == some ⟨mid.reverse⟩
          | _ => false)
       | _ => false)
    | _ => false
  | _ => false

/-- Reference XPath semantics for `//name[conds]` / `//*[conds]` / `//name`. -/
def evalDescendant (d : XDoc) (body : String) : List (List Nat) :=
  let (namePart, condPart) :=
    match strSplitOn body "[" with
    | [nm] => (nm, none)
    | nm :: rest =>
      let joined := String.intercalate "[" rest
      if strEndsWith joined "]" then (nm, some (strDropRight joined 1)) else (nm, none)
    | [] => ("", none)
  let conds := match condPart with
    | none => []
    | some cp => strSplitOn cp " and "
  (docNodes d).filterMap (fun pn =>
    let tagOk := namePart == "*" || pn.2.tagName == namePart
    if tagOk && conds.all (condHolds pn.2) then some pn.1 else none)

/-- Reference implementation of the external `xpath.select` on the query
shapes generated by the locator code: `/hierarchy/*` (element children of
a root named `hierarchy`), `//*[@a="v"]`, `//tag` and
`//tag[@a="v" and ...]`.  Other expressions evaluate to no nodes. -/
def evalXPRef : XPathEval := fun d expr =>
  if expr == "/hierarchy/*" then
    match d.root with
    | some r =>
      if r.tagName == "hierarchy" then (List.range r.children.length).map (fun i => [i])
      else []
    | none => []
  else if strStartsWith expr "//" then
    evalDescendant d (strDrop expr 2)
  else []


/-! ## Source parsing (`src/locators/xml-parsing.ts`) -/

/-- Attribute bag of an element (JS `ElementAttributes` object): a list of
attribute name/value pairs with first-match lookup. -/
def attrOf (attrs : List (String × String)) (name : String) : Option String :=
  (attrs.find? (fun p => p.1 == name)).map Prod.snd

/-- JS `a || b` on a nullable string: `b` when `a` is absent or empty. -/
def jsOrStr (a : Option String) (b : String) : String :=
  match a with
  | some s => if s != "" then s else b
  | none => b

/-- Lightweight tree node produced by `xmlToJSON` (`JSONElement`):
children, tag name, attributes and dot-separated index path. -/
inductive JSONElement : Type where
  | mk : List JSONElement → String → List (String × String) → String → JSONElement
deriving Repr

/-- Children of a `JSONElement`. -/
def JSONElement.children : JSONElement → List JSONElement
  | .mk c _ _ _ => c

/-- Tag name of a `JSONElement`. -/
def JSONElement.tagName : JSONElement → String
  | .mk _ t _ _ => t

/-- Attributes of a `JSONElement`. -/
def JSONElement.attributes : JSONElement → List (String × String)
  | .mk _ _ a _ => a

/-- Dot-separated index path of a `JSONElement` (e.g. `"0.2.1"`). -/
def JSONElement.path : JSONElement → String
  | .mk _ _ _ p => p

mutual

/-- `translateRecursively` of `xml-parsing.ts`: translate a DOM element to a
`JSONElement`, escaping newlines in attribute values and building the
dot-separated index path (`index = none` models the `null` root call). -/
def translateRecursively : XNode → String → Option Nat → JSONElement
  | .node t attrs cs, parentPath, index =>
    let attributes := attrs.map (fun p => (p.1, strReplace p.2 "\n" "\\n"))
    let path :=
      match index with
      | none => ""
      | some i => (if parentPath != "" then parentPath ++ "." else "") ++ toString i
    .mk (translateChildren path 0 cs) t attributes path

/-- Translate a child list, numbering children from `i`. -/
def translateChildren : String → Nat → List XNode → List JSONElement
  | _, _, [] => []
  | p, i, c :: cs => translateRecursively c p (some i) :: translateChildren p (i + 1) cs

end

/-- `xmlToJSON`: parse the page-source XML (via the external DOM parser
`parse`; `none` models a parse exception or a reported parser error) and
translate the document element; a document with no document element yields
the empty `JSONElement`, a failed parse yields `none`. -/
def xmlToJSON (parse : String → Option XDoc) (sourceXML : String) : Option JSONElement :=
  match parse sourceXML with
  | none => none
  | some doc =>
    match doc.root with
    | some r => some (translateRecursively r "" none)
    | none => some (.mk [] "" [] "")

/-- `xmlToDOM`: parse the page-source XML to a DOM document (or `none` on a
parse failure). -/
def xmlToDOM (parse : String → Option XDoc) (sourceXML : String) : Option XDoc :=
  parse sourceXML

/-- `UniquenessResult` of `xml-parsing.ts`. -/
structure UniquenessResult : Type where
  isUnique : Bool
  index : Option Nat
  totalMatches : Option Nat
deriving Repr, DecidableEq

/-- `isSameElement`: geometry-based element equality fallback - same tag
name, then equal `bounds` strings (Android) or equal `x`/`y`/`width`/`height`
attributes (iOS). -/
def isSameElement (d : XDoc) (p q : List Nat) : Bool :=
  match resolveNode d p, resolveNode d q with
  | some el1, some el2 =>
    if el1.tagName != el2.tagName then false
    else
      let b1 := el1.getAttr? "bounds"
      let b2 := el2.getAttr? "bounds"
      if optTruthy b1 && optTruthy b2 then b1 == b2
      else
        let x1 := el1.getAttr? "x"
        let y1 := el1.getAttr? "y"
        let x2 := el2.getAttr? "x"
        let y2 := el2.getAttr? "y"
        if optTruthy x1 && optTruthy y1 && optTruthy x2 && optTruthy y2 then
          x1 == x2 && y1 == y2 &&
          el1.getAttr? "width" == el2.getAttr? "width" &&
          el1.getAttr? "height" == el2.getAttr? "height"
        else false
  | _, _ => false

/-- `checkXPathUniqueness`: evaluate an XPath and report whether it is
unique; when not unique and a target node is supplied, report the 1-based
position of the first match that is the target (`isSameNode`, i.e. path
equality) or geometry-equal to it (`isSameElement`). -/
def checkXPathUniqueness (ev : XPathEval) (d : XDoc) (xpathExpr : String)
    (targetNode : Option (List Nat)) : UniquenessResult :=
  let nodes := ev d xpathExpr
  let totalMatches := nodes.length
  if totalMatches == 0 then ⟨false, none, none⟩
  else if totalMatches == 1 then ⟨true, none, none⟩
  else
    match targetNode with
    | some t =>
      match nodes.findIdx? (fun p => p == t || isSameElement d p t) with
      | some i => ⟨false, some (i + 1), some totalMatches⟩
      | none => ⟨false, none, some totalMatches⟩
    | none => ⟨false, none, some totalMatches⟩

/-- One step of `findDOMNodeByPath`'s walk over element children. -/
def findPathGo : XNode → List (Option Nat) → List Nat → Option (List Nat)
  | _, [], acc => some acc
  | n, idx? :: rest, acc =>
    match idx? with
    | none => none
    | some i =>
      match n.children.get? i with
      | some c => findPathGo c rest (acc ++ [i])
      | none => none

/-- `findDOMNodeByPath`: resolve a dot-separated index path back to the DOM
node reference (walking element-only children); the empty path denotes the
document element. -/
def findDOMNodeByPath (d : XDoc) (path : String) : Option (List Nat) :=
  if path == "" then (match d.root with | some _ => some [] | none => none)
  else
    match d.root with
    | none => none
    | some r => findPathGo r ((strSplitOn path ".").map jsNumberNat) []

/-- `Bounds` rectangle; fields are JS numbers (`none` = `NaN`). -/
structure Bounds : Type where
  x : Option Int
  y : Option Int
  width : Option Int
  height : Option Int
deriving Repr, DecidableEq

/-- Match a literal character at the head of the input. -/
def expectChar (c : Char) : List Char → Option (List Char)
  | x :: rest => if x == c then some rest else none
  | [] => none

/-- Match one or more decimal digits (`\d+`), returning value and rest. -/
def matchDigits (cs : List Char) : Option (Nat × List Char) :=
  let ds := cs.takeWhile Char.isDigit
  if ds.isEmpty then none else some (digitsToNat ds, cs.drop ds.length)

/-- Match the regex `\[(\d+),(\d+)\]\[(\d+),(\d+)\]` at the head of the input. -/
def matchBoundsAt (cs : List Char) : Option (Nat × Nat × Nat × Nat) := do
  let r ← expectChar '[' cs
  let (x1, r) ← matchDigits r
  let r ← expectChar ',' r
  let (y1, r) ← matchDigits r
  let r ← expectChar ']' r
  let r ← expectChar '[' r
  let (x2, r) ← matchDigits r
  let r ← expectChar ',' r
  let (y2, r) ← matchDigits r
  let _ ← expectChar ']' r
  pure (x1, y1, x2, y2)

/-- Unanchored search for the bounds pattern (leftmost match). -/
def findBoundsMatch : List Char → Option (Nat × Nat × Nat × Nat)
  | [] => none
  | c :: rest => matchBoundsAt (c :: rest) <|> findBoundsMatch rest

/-- `parseAndroidBounds`: parse an Android `"[x1,y1][x2,y2]"` bounds string;
no match yields the zero rectangle. -/
def parseAndroidBounds (bounds : String) : Bounds :=
  match findBoundsMatch bounds.toList with
  | none => ⟨some 0, some 0, some 0, some 0⟩
  | some (x1, y1, x2, y2) =>
    ⟨some x1, some y1, some ((x2 : Int) - (x1 : Int)), some ((y2 : Int) - (y1 : Int))⟩

/-- `parseIOSBounds`: parse iOS bounds from the `x`/`y`/`width`/`height`
attributes (missing or empty attributes default to `'0'`). -/
def parseIOSBounds (attributes : List (String × String)) : Bounds :=
  ⟨jsParseInt (jsOrStr (attrOf attributes "x") "0"),
   jsParseInt (jsOrStr (attrOf attributes "y") "0"),
   jsParseInt (jsOrStr (attrOf attributes "width") "0"),
   jsParseInt (jsOrStr (attrOf attributes "height") "0")⟩

/-- Match `attr=["']value["']` at the head of the input, returning the rest. -/
def matchAttrOcc (attr value : List Char) (cs : List Char) : Option (List Char) := do
  let r ← matchLit attr cs
  let r ← expectChar '=' r
  match r with
  | q :: r2 =>
    if q == '"' || q == '\'' then do
      let r3 ← matchLit value r2
      (match r3 with
       | q2 :: r4 => if q2 == '"' || q2 == '\'' then some r4 else none
       | [] => none)
    else none
  | [] => none

/-- Count non-overlapping occurrences of the attribute pattern, scanning
left to right (fuel bounds the scan; it starts at the input length). -/
def countAttrOccAux (attr value : List Char) : Nat → List Char → Nat
  | 0, _ => 0
  | _, [] => 0
  | fuel + 1, c :: rest =>
    match matchAttrOcc attr value (c :: rest) with
    | some r => 1 + countAttrOccAux attr value fuel r
    | none => countAttrOccAux attr value fuel rest

/-- `countAttributeOccurrences`: count `attribute=["']value["']` patterns in
the raw XML text (the regex-based fast uniqueness pre-check). -/
def countAttributeOccurrences (sourceXML attrName value : String) : Nat :=
  countAttrOccAux attrName.toList value.toList sourceXML.toList.length sourceXML.toList

/-- `isAttributeUnique`: the regex-based check reports uniqueness iff the
pattern occurs exactly once in the raw XML text. -/
def isAttributeUnique (sourceXML attrName value : String) : Bool :=
  countAttributeOccurrences sourceXML attrName value == 1

/-! ## Locator generation (`src/locators/locator-generation.ts`) -/

/-- `isValidValue` on a present string: not `'null'` and not whitespace-only. -/
def isValidValueS (v : String) : Bool :=
  v != "null" && strTrim v != ""

/-- `isValidValue`: a nullable attribute value usable in a locator. -/
def isValidValue : Option String → Bool
  | some v => isValidValueS v
  | none => false

/-- `escapeText`: backslash-escape double quotes and newlines. -/
def escapeText (text : String) : String :=
  strReplace (strReplace text "\"" "\\\"") "\n" "\\n"

/-- `escapeXPathValue`: quote an XPath string literal with whichever quote
character is absent, or build a `concat(...)` of split segments when the
value contains both kinds of quote. -/
def escapeXPathValue (value : String) : String :=
  if !(strContainsChar value '\'') then "'" ++ value ++ "'"
  else if !(strContainsChar value '"') then "\"" ++ value ++ "\""
  else
    let step := fun (acc : List String × String) (c : Char) =>
      if c == '\'' then
        let ps := if acc.2 != "" then acc.1 ++ ["'" ++ acc.2 ++ "'"] else acc.1
        (ps ++ ["\"'\""], "")
      else (acc.1, acc.2.push c)
    let fin := value.toList.foldl step ([], "")
    let parts := if fin.2 != "" then fin.1 ++ ["'" ++ fin.2 ++ "'"] else fin.1
    "concat(" ++ String.intercalate "," parts ++ ")"

/-- `generateIndexedXPath`: wrap a non-unique XPath with a 1-based index. -/
def generateIndexedXPath (baseXPath : String) (index : Nat) : String :=
  "(" ++ baseXPath ++ ")[" ++ toString index ++ "]"

/-- `generateIndexedUiAutomator`: append a 0-based `.instance(n)` to a
UiAutomator selector (`index` is 1-based). -/
def generateIndexedUiAutomator (baseSelector : String) (index : Nat) : String :=
  baseSelector ++ ".instance(" ++ toString (index - 1) ++ ")"

/-- `LocatorContext` of `locator-generation.ts`. -/
structure LocatorContext : Type where
  sourceXML : String
  parsedDOM : Option XDoc
  isAndroid : Bool

/-- Match the regex `\/\/\*\[@([^=]+)="([^"]+)"\]` at the head of the input. -/
def matchAttrXPathAt (cs : List Char) : Option (String × String) := do
  let r ← matchLit "//*[@".toList cs
  let a := r.takeWhile (fun c => c != '=')
  if a.isEmpty then none
  else do
    let r2 ← expectChar '=' (r.drop a.length)
    let r3 ← expectChar '"' r2
    let v := r3.takeWhile (fun c => c != '"')
    if v.isEmpty then none
    else do
      let r4 ← expectChar '"' (r3.drop v.length)
      let _ ← expectChar ']' r4
      pure (⟨a⟩, ⟨v⟩)

/-- Unanchored search for the simple-attribute-XPath pattern. -/
def findAttrXPathMatch : List Char → Option (String × String)
  | [] => none
  | c :: rest => matchAttrXPathAt (c :: rest) <|> findAttrXPathMatch rest

/-- `checkUniqueness`: DOM-based XPath uniqueness check when a parsed DOM is
available, otherwise the regex fallback on `//*[@attr="value"]` shapes. -/
def checkUniqueness (ev : XPathEval) (ctx : LocatorContext) (xp : String)
    (targetNode : Option (List Nat)) : UniquenessResult :=
  match ctx.parsedDOM with
  | some d => checkXPathUniqueness ev d xp targetNode
  | none =>
    match findAttrXPathMatch xp.toList with
    | some (attr, value) => ⟨isAttributeUnique ctx.sourceXML attr value, none, none⟩
    | none => ⟨false, none, none⟩

/-- The parent node reference of a node (the document element has the
Document as parent, which is not an element). -/
def parentPathOf : List Nat → Option (List Nat)
  | [] => none
  | p => some p.dropLast

/-- `getSiblingIndex`: 1-based index among same-tag element siblings. -/
def getSiblingIndex (d : XDoc) (p : List Nat) : Nat :=
  match p with
  | [] => 1
  | _ =>
    match resolveNode d p.dropLast, resolveNode d p with
    | some parent, some me =>
      let last := (p.getLast?).getD 0
      ((parent.children.take (last + 1)).filter (fun c => c.tagName == me.tagName)).length
    | _, _ => 1

/-- `countSiblings`: number of same-tag element siblings (self included). -/
def countSiblings (d : XDoc) (p : List Nat) : Nat :=
  match p with
  | [] => 1
  | _ =>
    match resolveNode d p.dropLast, resolveNode d p with
    | some parent, some me =>
      (parent.children.filter (fun c => c.tagName == me.tagName)).length
    | _, _ => 1

/-- Loop of `findUniqueAttribute` over the platform attribute list. -/
def findUniqueAttrGo (ev : XPathEval) (ctx : LocatorContext) (el : XNode) :
    List String → Option String
  | [] => none
  | attr :: rest =>
    match el.getAttr? attr with
    | some value =>
      if value != "" && strTrim value != "" then
        let xp := "//*[@" ++ attr ++ "=" ++ escapeXPathValue value ++ "]"
        let result :=
          match ctx.parsedDOM with
          | some dd => checkXPathUniqueness ev dd xp none
          | none => ⟨isAttributeUnique ctx.sourceXML attr value, none, none⟩
        if result.isUnique then some ("@" ++ attr ++ "=" ++ escapeXPathValue value)
        else findUniqueAttrGo ev ctx el rest
      else findUniqueAttrGo ev ctx el rest
    | none => findUniqueAttrGo ev ctx el rest

/-- `findUniqueAttribute`: first uniquely-identifying attribute of an
element, as an XPath condition (Android: resource-id/content-desc/text;
iOS: name/label/value). -/
def findUniqueAttribute (ev : XPathEval) (ctx : LocatorContext) (el : XNode) : Option String :=
  findUniqueAttrGo ev ctx el
    (if ctx.isAndroid then ["resource-id", "content-desc", "text"]
     else ["name", "label", "value"])

/-- The ancestor-walking loop of `buildHierarchicalXPath`, collecting path
parts bottom-up; it stops at a uniquely-attributed ancestor, at the
document root, or after `fuel` (= `maxDepth`) levels. -/
def hierLoop (ev : XPathEval) (ctx : LocatorContext) (d : XDoc) :
    Option (List Nat) → Nat → List String
  | _, 0 => []
  | none, _ => []
  | some p, fuel + 1 =>
    match resolveNode d p with
    | none => []
    | some el =>
      match findUniqueAttribute ev ctx el with
      | some uniqueAttr => ["//" ++ el.tagName ++ "[" ++ uniqueAttr ++ "]"]
      | none =>
        let part :=
          if countSiblings d p > 1 then el.tagName ++ "[" ++ toString (getSiblingIndex d p) ++ "]"
          else el.tagName
        part :: hierLoop ev ctx d (parentPathOf p) fuel

/-- `buildHierarchicalXPath`: build a hierarchical XPath by walking up the
DOM ancestor chain, at most `maxDepth` levels. -/
def buildHierarchicalXPath (ev : XPathEval) (ctx : LocatorContext)
    (element : List Nat) (maxDepth : Nat) : Option String :=
  match ctx.parsedDOM with
  | none => none
  | some d =>
    let pathParts := (hierLoop ev ctx d (some element) maxDepth).reverse
    match pathParts with
    | [] => none
    | p0 :: rest =>
      let result := rest.foldl (fun acc s => acc ++ "/" ++ s) p0
      some (if strStartsWith result "//" then result else "//" ++ result)

/-- The no-index fallback branch of `addXPathLocator`: attempt the
hierarchical XPath (max depth 3) when a target node and parsed DOM are
available, then always emit the original XPath as a last resort. -/
def addXPathFallback (ev : XPathEval) (xp : String) (ctx : LocatorContext)
    (targetNode : Option (List Nat)) : List (String × String) :=
  (match targetNode, ctx.parsedDOM with
   | some t, some _ =>
     (match buildHierarchicalXPath ev ctx t 3 with
      | some hierarchical => [("xpath", hierarchical)]
      | none => [])
   | _, _ => []) ++ [("xpath", xp)]

/-- `addXPathLocator`: uniqueness-checked XPath emission with indexed and
hierarchical fallbacks (returns the locators pushed onto `results`). -/
def addXPathLocator (ev : XPathEval) (xp : String) (ctx : LocatorContext)
    (targetNode : Option (List Nat)) : List (String × String) :=
  let uniqueness := checkUniqueness ev ctx xp targetNode
  if uniqueness.isUnique then [("xpath", xp)]
  else
    match uniqueness.index with
    | some (n + 1) => [("xpath", generateIndexedXPath xp (n + 1))]
    | _ => addXPathFallback ev xp ctx targetNode

/-- `isInUiAutomatorScope`: true without a parsed document, when
`/hierarchy` has no element children, when the element's path is empty,
and otherwise iff the path's first index equals (number of `/hierarchy`
children − 1). -/
def isInUiAutomatorScope (ev : XPathEval) (element : JSONElement)
    (doc : Option XDoc) : Bool :=
  match doc with
  | none => true
  | some d =>
    let hierarchyNodes := ev d "/hierarchy/*"
    if hierarchyNodes.length == 0 then true
    else
      let lastIndex := hierarchyNodes.length
      match strSplitOn element.path "." with
      | [] => true
      | p0 :: _ =>
        if p0 == "" then true
        else
          match jsParseInt p0 with
          | none => false
          | some firstIndex => firstIndex == (lastIndex : Int) - 1

/-- `buildUiAutomatorSelector`: compound UiSelector chaining
resourceId/text/description/className for every present attribute. -/
def buildUiAutomatorSelector (element : JSONElement) : Option String :=
  let attrs := element.attributes
  let parts :=
    (match attrOf attrs "resource-id" with
     | some rid => if isValidValueS rid then ["resourceId(\"" ++ rid ++ "\")"] else []
     | none => []) ++
    (match attrOf attrs "text" with
     | some text =>
       if isValidValueS text && text.length < 100 then ["text(\"" ++ escapeText text ++ "\")"] else []
     | none => []) ++
    (match attrOf attrs "content-desc" with
     | some cd => if isValidValueS cd then ["description(\"" ++ cd ++ "\")"] else []
     | none => []) ++
    (match attrOf attrs "class" with
     | some cls => if isValidValueS cls then ["className(\"" ++ cls ++ "\")"] else []
     | none => [])
  if parts.length == 0 then none
  else some ("android=new UiSelector()." ++ String.intercalate "." parts)

/-- `buildPredicateString`: iOS predicate string ANDing
name/label/value/visible/enabled conditions. -/
def buildPredicateString (element : JSONElement) : Option String :=
  let attrs := element.attributes
  let conditions :=
    (match attrOf attrs "name" with
     | some nm => if isValidValueS nm then ["name == \"" ++ escapeText nm ++ "\""] else []
     | none => []) ++
    (match attrOf attrs "label" with
     | some lb => if isValidValueS lb then ["label == \"" ++ escapeText lb ++ "\""] else []
     | none => []) ++
    (match attrOf attrs "value" with
     | some v => if isValidValueS v then ["value == \"" ++ escapeText v ++ "\""] else []
     | none => []) ++
    (if attrOf attrs "visible" == some "true" then ["visible == 1"] else []) ++
    (if attrOf attrs "enabled" == some "true" then ["enabled == 1"] else [])
  if conditions.length == 0 then none
  else some ("-ios predicate string:" ++ String.intercalate " AND " conditions)

/-- `buildClassChain`: iOS class chain for `XCUI`-prefixed types, anchored
on label or name when available. -/
def buildClassChain (element : JSONElement) : Option String :=
  let attrs := element.attributes
  let tagName := element.tagName
  if !(strStartsWith tagName "XCUI") then none
  else
    let base := "**/" ++ tagName
    let selector :=
      match attrOf attrs "label" with
      | some lb =>
        if isValidValueS lb then base ++ "[`label == \"" ++ escapeText lb ++ "\"`]"
        else
          (match attrOf attrs "name" with
           | some nm => if isValidValueS nm then base ++ "[`name == \"" ++ escapeText nm ++ "\"`]" else base
           | none => base)
      | none =>
        (match attrOf attrs "name" with
         | some nm => if isValidValueS nm then base ++ "[`name == \"" ++ escapeText nm ++ "\"`]" else base
         | none => base)
    some ("-ios class chain:" ++ selector)

/-- `buildXPath`: attribute-based XPath for an element (always a nonempty
string; the TS `string | null` annotation notwithstanding, every branch
returns a string). -/
def buildXPath (element : JSONElement) (sourceXML : String) (isAndroid : Bool) : String :=
  let attrs := element.attributes
  let tagName := element.tagName
  let conditions :=
    if isAndroid then
      (match attrOf attrs "resource-id" with
       | some rid => if isValidValueS rid then ["@resource-id=\"" ++ rid ++ "\""] else []
       | none => []) ++
      (match attrOf attrs "content-desc" with
       | some cd => if isValidValueS cd then ["@content-desc=\"" ++ cd ++ "\""] else []
       | none => []) ++
      (match attrOf attrs "text" with
       | some t => if isValidValueS t && t.length < 100 then ["@text=\"" ++ escapeText t ++ "\""] else []
       | none => [])
    else
      (match attrOf attrs "name" with
       | some nm => if isValidValueS nm then ["@name=\"" ++ nm ++ "\""] else []
       | none => []) ++
      (match attrOf attrs "label" with
       | some lb => if isValidValueS lb then ["@label=\"" ++ lb ++ "\""] else []
       | none => []) ++
      (match attrOf attrs "value" with
       | some v => if isValidValueS v then ["@value=\"" ++ v ++ "\""] else []
       | none => [])
  if conditions.length == 0 then "//" ++ tagName
  else "//" ++ tagName ++ "[" ++ String.intercalate " and " conditions ++ "]"

/-- The `resource-id` emission block of `getSimpleSuggestedLocators`. -/
def simpleAndroidId (ev : XPathEval) (ctx : LocatorContext) (attrs : List (String × String))
    (inUiAutomatorScope : Bool) (targetNode : Option (List Nat)) : List (String × String) :=
  match attrOf attrs "resource-id" with
  | some resourceId =>
    if isValidValueS resourceId then
      let xp := "//*[@resource-id=\"" ++ resourceId ++ "\"]"
      let uniqueness := checkUniqueness ev ctx xp targetNode
      let base := "android=new UiSelector().resourceId(\"" ++ resourceId ++ "\")"
      if uniqueness.isUnique && inUiAutomatorScope then [("id", base)]
      else
        match uniqueness.index with
        | some (n + 1) =>
          if inUiAutomatorScope then [("id", generateIndexedUiAutomator base (n + 1))] else []
        | _ => []
    else []
  | none => []

/-- The `content-desc` emission block of `getSimpleSuggestedLocators`. -/
def simpleAndroidContentDesc (ev : XPathEval) (ctx : LocatorContext)
    (attrs : List (String × String)) (targetNode : Option (List Nat)) : List (String × String) :=
  match attrOf attrs "content-desc" with
  | some contentDesc =>
    if isValidValueS contentDesc then
      let xp := "//*[@content-desc=\"" ++ contentDesc ++ "\"]"
      let uniqueness := checkUniqueness ev ctx xp targetNode
      if uniqueness.isUnique then [("accessibility-id", "~" ++ contentDesc)] else []
    else []
  | none => []

/-- The `text` emission block of `getSimpleSuggestedLocators`. -/
def simpleAndroidText (ev : XPathEval) (ctx : LocatorContext) (attrs : List (String × String))
    (inUiAutomatorScope : Bool) (targetNode : Option (List Nat)) : List (String × String) :=
  match attrOf attrs "text" with
  | some text =>
    if isValidValueS text && text.length < 100 then
      let xp := "//*[@text=\"" ++ escapeText text ++ "\"]"
      let uniqueness := checkUniqueness ev ctx xp targetNode
      let base := "android=new UiSelector().text(\"" ++ escapeText text ++ "\")"
      if uniqueness.isUnique && inUiAutomatorScope then [("text", base)]
      else
        match uniqueness.index with
        | some (n + 1) =>
          if inUiAutomatorScope then [("text", generateIndexedUiAutomator base (n + 1))] else []
        | _ => []
    else []
  | none => []

/-- The iOS `name` (accessibility id) block of `getSimpleSuggestedLocators`. -/
def simpleIOSName (ev : XPathEval) (ctx : LocatorContext) (attrs : List (String × String))
    (targetNode : Option (List Nat)) : List (String × String) :=
  match attrOf attrs "name" with
  | some nm =>
    if isValidValueS nm then
      let xp := "//*[@name=\"" ++ nm ++ "\"]"
      let uniqueness := checkUniqueness ev ctx xp targetNode
      if uniqueness.isUnique then [("accessibility-id", "~" ++ nm)] else []
    else []
  | none => []

/-- The iOS `label` (predicate string) block of `getSimpleSuggestedLocators`. -/
def simpleIOSLabel (ev : XPathEval) (ctx : LocatorContext) (attrs : List (String × String))
    (targetNode : Option (List Nat)) : List (String × String) :=
  match attrOf attrs "label" with
  | some label =>
    if isValidValueS label && (match attrOf attrs "name" with
                               | some nm => label != nm
                               | none => true) then
      let xp := "//*[@label=\"" ++ escapeText label ++ "\"]"
      let uniqueness := checkUniqueness ev ctx xp targetNode
      if uniqueness.isUnique then
        [("predicate-string", "-ios predicate string:label == \"" ++ escapeText label ++ "\"")]
      else []
    else []
  | none => []

/-- The iOS `value` (predicate string) block of `getSimpleSuggestedLocators`. -/
def simpleIOSValue (ev : XPathEval) (ctx : LocatorContext) (attrs : List (String × String))
    (targetNode : Option (List Nat)) : List (String × String) :=
  match attrOf attrs "value" with
  | some v =>
    if isValidValueS v then
      let xp := "//*[@value=\"" ++ escapeText v ++ "\"]"
      let uniqueness := checkUniqueness ev ctx xp targetNode
      if uniqueness.isUnique then
        [("predicate-string", "-ios predicate string:value == \"" ++ escapeText v ++ "\"")]
      else []
    else []
  | none => []

/-- `getSimpleSuggestedLocators`: single-attribute locators, each checked
for uniqueness via an `//*[@attr="value"]` XPath. -/
def getSimpleSuggestedLocators (ev : XPathEval) (element : JSONElement) (ctx : LocatorContext)
    (automationName : String) (targetNode : Option (List Nat)) : List (String × String) :=
  let isAndroid := jsIncludes (strToLower automationName) "uiautomator"
  let attrs := element.attributes
  let inUiAutomatorScope :=
    if isAndroid then isInUiAutomatorScope ev element ctx.parsedDOM else true
  if isAndroid then
    simpleAndroidId ev ctx attrs inUiAutomatorScope targetNode ++
    simpleAndroidContentDesc ev ctx attrs targetNode ++
    simpleAndroidText ev ctx attrs inUiAutomatorScope targetNode
  else
    simpleIOSName ev ctx attrs targetNode ++
    simpleIOSLabel ev ctx attrs targetNode ++
    simpleIOSValue ev ctx attrs targetNode

/-- `getComplexSuggestedLocators`: compound UiAutomator / predicate /
class-chain selectors plus the uniqueness-checked XPath chain. -/
def getComplexSuggestedLocators (ev : XPathEval) (element : JSONElement) (ctx : LocatorContext)
    (automationName : String) (targetNode : Option (List Nat)) : List (String × String) :=
  let isAndroid := jsIncludes (strToLower automationName) "uiautomator"
  let inUiAutomatorScope :=
    if isAndroid then isInUiAutomatorScope ev element ctx.parsedDOM else true
  if isAndroid then
    (if inUiAutomatorScope then
       (match buildUiAutomatorSelector element with
        | some uiAutomator => [("uiautomator", uiAutomator)]
        | none => [])
     else []) ++
    (let xp := buildXPath element ctx.sourceXML true
     if xp != "" then addXPathLocator ev xp ctx targetNode else []) ++
    (if inUiAutomatorScope && isValidValue (attrOf element.attributes "class") then
       [("class-name",
         "android=new UiSelector().className(\"" ++
           (attrOf element.attributes "class").getD "" ++ "\")")]
     else [])
  else
    (match buildPredicateString element with
     | some predicate => [("predicate-string", predicate)]
     | none => []) ++
    (match buildClassChain element with
     | some classChain => [("class-chain", classChain)]
     | none => []) ++
    (let xp := buildXPath element ctx.sourceXML false
     if xp != "" then addXPathLocator ev xp ctx targetNode else []) ++
    (if strStartsWith element.tagName "XCUIElementType" then
       [("class-name", "-ios class chain:**/" ++ element.tagName)]
     else [])

/-- The value-deduplication loop of `getSuggestedLocators` (first
occurrence of each locator value wins, whatever its strategy). -/
def dedupByValue : List String → List (String × String) → List (String × String)
  | _, [] => []
  | seen, l :: ls =>
    if seen.contains l.2 then dedupByValue seen ls
    else l :: dedupByValue (l.2 :: seen) ls

/-- `getSuggestedLocators`: simple locators, then complex locators,
deduplicated by value (a missing context defaults to a DOM-less one). -/
def getSuggestedLocators (ev : XPathEval) (element : JSONElement)
    (sourceXML automationName : String) (ctx? : Option LocatorContext)
    (targetNode : Option (List Nat)) : List (String × String) :=
  let locatorCtx := ctx?.getD
    ⟨sourceXML, none, jsIncludes (strToLower automationName) "uiautomator"⟩
  dedupByValue []
    (getSimpleSuggestedLocators ev element locatorCtx automationName targetNode ++
     getComplexSuggestedLocators ev element locatorCtx automationName targetNode)

/-- `getBestLocator`: the first suggested locator's value, if any. -/
def getBestLocator (ev : XPathEval) (element : JSONElement)
    (sourceXML automationName : String) : Option String :=
  ((getSuggestedLocators ev element sourceXML automationName none none).head?).map Prod.snd

/-- The accumulator loop of `locatorsToObject` (first value per strategy wins). -/
def locatorsToObjectGo : List (String × String) → List (String × String) → List (String × String)
  | acc, [] => acc
  | acc, (strategy, value) :: rest =>
    if (acc.find? (fun p => p.1 == strategy)).isSome then locatorsToObjectGo acc rest
    else locatorsToObjectGo (acc ++ [(strategy, value)]) rest

/-- `locatorsToObject`: strategy → value record, first value per strategy wins. -/
def locatorsToObject (locators : List (String × String)) : List (String × String) :=
  locatorsToObjectGo [] locators

/-! ## Element classification and filtering (`src/locators/element-filter.ts`) -/

/-- `FilterOptions` of `element-filter.ts` (absent fields model
`undefined`, replaced by the destructuring defaults). -/
structure FilterOptions : Type where
  includeTagNames : Option (List String)
  excludeTagNames : Option (List String)
  requireAttributes : Option (List String)
  minAttributeCount : Option Nat
  fetchableOnly : Option Bool
  clickableOnly : Option Bool
  visibleOnly : Option Bool
deriving Repr

/-- The all-`undefined` filter configuration (JS `{}`). -/
def FilterOptions.empty : FilterOptions :=
  ⟨none, none, none, none, none, none, none⟩

/-- `ANDROID_INTERACTABLE_TAGS`. -/
def ANDROID_INTERACTABLE_TAGS : List String :=
  ["android.widget.EditText",
   "android.widget.AutoCompleteTextView",
   "android.widget.MultiAutoCompleteTextView",
   "android.widget.SearchView",
   "android.widget.Button",
   "android.widget.ImageButton",
   "android.widget.ToggleButton",
   "android.widget.CompoundButton",
   "android.widget.RadioButton",
   "android.widget.CheckBox",
   "android.widget.Switch",
   "android.widget.FloatingActionButton",
   "com.google.android.material.button.MaterialButton",
   "com.google.android.material.floatingactionbutton.FloatingActionButton",
   "android.widget.TextView",
   "android.widget.CheckedTextView",
   "android.widget.ImageView",
   "android.widget.QuickContactBadge",
   "android.widget.Spinner",
   "android.widget.SeekBar",
   "android.widget.RatingBar",
   "android.widget.ProgressBar",
   "android.widget.DatePicker",
   "android.widget.TimePicker",
   "android.widget.NumberPicker",
   "android.widget.AdapterView"]

/-- `IOS_INTERACTABLE_TAGS`. -/
def IOS_INTERACTABLE_TAGS : List String :=
  ["XCUIElementTypeTextField",
   "XCUIElementTypeSecureTextField",
   "XCUIElementTypeTextView",
   "XCUIElementTypeSearchField",
   "XCUIElementTypeButton",
   "XCUIElementTypeLink",
   "XCUIElementTypeStaticText",
   "XCUIElementTypeImage",
   "XCUIElementTypeIcon",
   "XCUIElementTypeSwitch",
   "XCUIElementTypeSlider",
   "XCUIElementTypeStepper",
   "XCUIElementTypeSegmentedControl",
   "XCUIElementTypePicker",
   "XCUIElementTypePickerWheel",
   "XCUIElementTypeDatePicker",
   "XCUIElementTypePageIndicator",
   "XCUIElementTypeCell",
   "XCUIElementTypeMenuItem",
   "XCUIElementTypeMenuBarItem",
   "XCUIElementTypeCheckBox",
   "XCUIElementTypeRadioButton",
   "XCUIElementTypeToggle",
   "XCUIElementTypeKey",
   "XCUIElementTypeKeyboard",
   "XCUIElementTypeAlert",
   "XCUIElementTypeSheet"]

/-- `ANDROID_LAYOUT_CONTAINERS`. -/
def ANDROID_LAYOUT_CONTAINERS : List String :=
  ["android.view.ViewGroup",
   "android.view.View",
   "android.widget.FrameLayout",
   "android.widget.LinearLayout",
   "android.widget.RelativeLayout",
   "android.widget.GridLayout",
   "android.widget.TableLayout",
   "android.widget.TableRow",
   "android.widget.AbsoluteLayout",
   "androidx.constraintlayout.widget.ConstraintLayout",
   "androidx.coordinatorlayout.widget.CoordinatorLayout",
   "androidx.appcompat.widget.LinearLayoutCompat",
   "androidx.cardview.widget.CardView",
   "androidx.appcompat.widget.ContentFrameLayout",
   "androidx.appcompat.widget.FitWindowsFrameLayout",
   "android.widget.ScrollView",
   "android.widget.HorizontalScrollView",
   "android.widget.NestedScrollView",
   "androidx.core.widget.NestedScrollView",
   "androidx.recyclerview.widget.RecyclerView",
   "android.widget.ListView",
   "android.widget.GridView",
   "android.widget.AbsListView",
   "android.widget.ActionBarContainer",
   "android.widget.ActionBarOverlayLayout",
   "android.view.ViewStub",
   "androidx.appcompat.widget.ActionBarContainer",
   "androidx.appcompat.widget.ActionBarContextView",
   "androidx.appcompat.widget.ActionBarOverlayLayout",
   "com.android.internal.policy.DecorView",
   "android.widget.DecorView"]

/-- `IOS_LAYOUT_CONTAINERS`. -/
def IOS_LAYOUT_CONTAINERS : List String :=
  ["XCUIElementTypeOther",
   "XCUIElementTypeGroup",
   "XCUIElementTypeLayoutItem",
   "XCUIElementTypeScrollView",
   "XCUIElementTypeTable",
   "XCUIElementTypeCollectionView",
   "XCUIElementTypeScrollBar",
   "XCUIElementTypeNavigationBar",
   "XCUIElementTypeTabBar",
   "XCUIElementTypeToolbar",
   "XCUIElementTypeStatusBar",
   "XCUIElementTypeMenuBar",
   "XCUIElementTypeWindow",
   "XCUIElementTypeSheet",
   "XCUIElementTypeDrawer",
   "XCUIElementTypeDialog",
   "XCUIElementTypePopover",
   "XCUIElementTypePopUpButton",
   "XCUIElementTypeOutline",
   "XCUIElementTypeOutlineRow",
   "XCUIElementTypeBrowser",
   "XCUIElementTypeSplitGroup",
   "XCUIElementTypeSplitter",
   "XCUIElementTypeApplication"]

/-- `matchesTagList`: exact match, or ends-with / contains partial match
(tolerating fully-qualified class names with package prefixes). -/
def matchesTagList (tagName : String) (tagList : List String) : Bool :=
  if tagList.contains tagName then true
  else tagList.any (fun tag => strEndsWith tagName tag || jsIncludes tagName tag)

/-- `matchesTagFilters`: whitelist (when nonempty) and blacklist gate. -/
def matchesTagFilters (element : JSONElement) (includeTagNames excludeTagNames : List String) : Bool :=
  if includeTagNames.length > 0 && !(matchesTagList element.tagName includeTagNames) then false
  else if matchesTagList element.tagName excludeTagNames then false
  else true

/-- `matchesAttributeFilters`: "at least one of these attributes" and
minimum non-empty attribute count. -/
def matchesAttributeFilters (element : JSONElement) (requireAttributes : List String)
    (minAttributeCount : Nat) : Bool :=
  if requireAttributes.length > 0 &&
     !(requireAttributes.any (fun attr => optTruthy (attrOf element.attributes attr))) then false
  else if minAttributeCount > 0 &&
          ((element.attributes.filter (fun p => p.2 != "")).length < minAttributeCount) then false
  else true

/-- The platform to generate locators for. -/
inductive MobilePlatform : Type where
  | android
  | ios
deriving Repr, DecidableEq

/-- `isInteractableElement`: tag is in the platform interactable list, or
(Android) clickable/focusable/checkable/long-clickable is `"true"`, or
(iOS) `accessible` is `"true"` (the `isNative` parameter is unused in the
source as well). -/
def isInteractableElement (element : JSONElement) (isNative : Bool)
    (automationName : String) : Bool :=
  let isAndroid := jsIncludes (strToLower automationName) "uiautomator"
  let interactableTags := if isAndroid then ANDROID_INTERACTABLE_TAGS else IOS_INTERACTABLE_TAGS
  if matchesTagList element.tagName interactableTags then true
  else if isAndroid &&
          (attrOf element.attributes "clickable" == some "true" ||
           attrOf element.attributes "focusable" == some "true" ||
           attrOf element.attributes "checkable" == some "true" ||
           attrOf element.attributes "long-clickable" == some "true") then true
  else if !isAndroid && attrOf element.attributes "accessible" == some "true" then true
  else false

/-- `isLayoutContainer`: tag matches the platform container list. -/
def isLayoutContainer (element : JSONElement) (platform : MobilePlatform) : Bool :=
  let containerList :=
    match platform with
    | .android => ANDROID_LAYOUT_CONTAINERS
    | .ios => IOS_LAYOUT_CONTAINERS
  matchesTagList element.tagName containerList

/-- A non-empty, non-`'null'` attribute (the meaningful-content test). -/
def meaningfulAttr (v : Option String) : Bool :=
  match v with
  | some s => s != "" && strTrim s != "" && s != "null"
  | none => false

/-- `hasMeaningfulContent`: non-empty non-`'null'` text, or (Android)
content-desc, or (iOS) label or name. -/
def hasMeaningfulContent (element : JSONElement) (platform : MobilePlatform) : Bool :=
  let attrs := element.attributes
  if meaningfulAttr (attrOf attrs "text") then true
  else
    match platform with
    | .android => meaningfulAttr (attrOf attrs "content-desc")
    | .ios => meaningfulAttr (attrOf attrs "label") || meaningfulAttr (attrOf attrs "name")

/-- `shouldIncludeElement`: the composite filter gate (tag filters,
attribute filters, clickable-only, visible/displayed-only, fetchable-only). -/
def shouldIncludeElement (element : JSONElement) (filters : FilterOptions)
    (isNative : Bool) (automationName : String) : Bool :=
  let includeTagNames := filters.includeTagNames.getD []
  let excludeTagNames := filters.excludeTagNames.getD ["hierarchy"]
  let requireAttributes := filters.requireAttributes.getD []
  let minAttributeCount := filters.minAttributeCount.getD 0
  let fetchableOnly := filters.fetchableOnly.getD false
  let clickableOnly := filters.clickableOnly.getD false
  let visibleOnly := filters.visibleOnly.getD true
  if !(matchesTagFilters element includeTagNames excludeTagNames) then false
  else if !(matchesAttributeFilters element requireAttributes minAttributeCount) then false
  else if clickableOnly && attrOf element.attributes "clickable" != some "true" then false
  else if visibleOnly &&
          (let isAndroid := jsIncludes (strToLower automationName) "uiautomator"
           (isAndroid && attrOf element.attributes "displayed" == some "false") ||
           (!isAndroid && attrOf element.attributes "visible" == some "false")) then false
  else if fetchableOnly && !(isInteractableElement element isNative automationName) then false
  else true

/-- `getDefaultFilters`: the default profile for a platform (container
tags excluded and fetchable-only unless `includeContainers`). -/
def getDefaultFilters (platform : MobilePlatform) (includeContainers : Bool) : FilterOptions :=
  let layoutContainers :=
    match platform with
    | .android => ANDROID_LAYOUT_CONTAINERS
    | .ios => IOS_LAYOUT_CONTAINERS
  { includeTagNames := none,
    excludeTagNames :=
      some (if includeContainers then ["hierarchy"] else "hierarchy" :: layoutContainers),
    requireAttributes := none,
    minAttributeCount := none,
    fetchableOnly := some (!includeContainers),
    clickableOnly := some false,
    visibleOnly := some true }

/-! ## Orchestrator (`src/locators/generate-all-locators.ts`) -/

/-- Viewport size in pixels. -/
structure Viewport : Type where
  width : Int
  height : Int
deriving Repr, DecidableEq

/-- `ElementWithLocators`: the output record assembled per element. -/
structure ElementWithLocators : Type where
  tagName : String
  locators : List (String × String)
  text : String
  contentDesc : String
  resourceId : String
  accessibilityId : String
  label : String
  value : String
  className : String
  clickable : Bool
  enabled : Bool
  displayed : Bool
  bounds : Bounds
  isInViewport : Bool
deriving Repr, DecidableEq

/-- `ProcessingContext` (without the mutable `results` accumulator, which
the embedding threads explicitly). -/
structure ProcessingContext : Type where
  sourceXML : String
  platform : MobilePlatform
  automationName : String
  isNative : Bool
  viewportSize : Viewport
  filters : FilterOptions
  parsedDOM : Option XDoc

/-- `GenerateLocatorsOptions` (absent fields model `undefined`). -/
structure GenerateLocatorsOptions : Type where
  platform : MobilePlatform
  viewportSize : Option Viewport
  filters : Option FilterOptions
  isNative : Option Bool

/-- `parseBounds`: platform dispatch for bounds parsing. -/
def parseBounds (element : JSONElement) (platform : MobilePlatform) : Bounds :=
  match platform with
  | .android => parseAndroidBounds ((attrOf element.attributes "bounds").getD "")
  | .ios => parseIOSBounds element.attributes

/-- `isWithinViewport`: strict containment of the bounds rectangle in
`[0, width] × [0, height]` with positive width and height. -/
def isWithinViewport (bounds : Bounds) (viewport : Viewport) : Bool :=
  jsGe bounds.x (some 0) &&
  jsGe bounds.y (some 0) &&
  jsGt bounds.width (some 0) &&
  jsGt bounds.height (some 0) &&
  jsLe (jsAdd bounds.x bounds.width) (some viewport.width) &&
  jsLe (jsAdd bounds.y bounds.height) (some viewport.height)

/-- `transformElement`: assemble the output record from an element and its
locators. -/
def transformElement (element : JSONElement) (locators : List (String × String))
    (ctx : ProcessingContext) : ElementWithLocators :=
  let attrs := element.attributes
  let bounds := parseBounds element ctx.platform
  { tagName := element.tagName,
    locators := locatorsToObject locators,
    text := jsOrStr (attrOf attrs "text") (jsOrStr (attrOf attrs "label") ""),
    contentDesc := jsOrStr (attrOf attrs "content-desc") "",
    resourceId := jsOrStr (attrOf attrs "resource-id") "",
    accessibilityId := jsOrStr (attrOf attrs "name") (jsOrStr (attrOf attrs "content-desc") ""),
    label := jsOrStr (attrOf attrs "label") "",
    value := jsOrStr (attrOf attrs "value") "",
    className := jsOrStr (attrOf attrs "class") element.tagName,
    clickable := attrOf attrs "clickable" == some "true" ||
                 attrOf attrs "accessible" == some "true" ||
                 attrOf attrs "long-clickable" == some "true",
    enabled := attrOf attrs "enabled" != some "false",
    displayed :=
      match ctx.platform with
      | .android => attrOf attrs "displayed" != some "false"
      | .ios => attrOf attrs "visible" != some "false",
    bounds := bounds,
    isInViewport := isWithinViewport bounds ctx.viewportSize }

/-- `shouldProcess`: the orchestrator-level inclusion gate - the filter
gate passes, or the element is a layout container with meaningful content. -/
def shouldProcess (element : JSONElement) (ctx : ProcessingContext) : Bool :=
  if shouldIncludeElement element ctx.filters ctx.isNative ctx.automationName then true
  else isLayoutContainer element ctx.platform && hasMeaningfulContent element ctx.platform

/-- `processElement`: process one element, returning its contribution to
the results list (empty when filtered out or no locators were produced). -/
def processElement (ev : XPathEval) (element : JSONElement) (ctx : ProcessingContext) :
    List ElementWithLocators :=
  if !(shouldProcess element ctx) then []
  else
    let targetNode :=
      match ctx.parsedDOM with
      | some d => findDOMNodeByPath d element.path
      | none => none
    let locators := getSuggestedLocators ev element ctx.sourceXML ctx.automationName
      (some ⟨ctx.sourceXML, ctx.parsedDOM, ctx.platform == MobilePlatform.android⟩)
      targetNode
    if locators.length == 0 then []
    else
      let transformed := transformElement element locators ctx
      if (transformed.locators).length == 0 then []
      else [transformed]

mutual

/-- `traverseTree`: depth-first pre-order traversal collecting the
per-element contributions. -/
def traverseTree (ev : XPathEval) (ctx : ProcessingContext) :
    JSONElement → List ElementWithLocators
  | .mk children t a p =>
    processElement ev (.mk children t a p) ctx ++ traverseList ev ctx children

/-- Traversal of a child list. -/
def traverseList (ev : XPathEval) (ctx : ProcessingContext) :
    List JSONElement → List ElementWithLocators
  | [] => []
  | c :: cs => traverseTree ev ctx c ++ traverseList ev ctx cs

end

/-- `generateAllElementLocators`: parse the page source (tree and DOM) and
traverse, assembling all element records; a failed tree parse yields the
empty list. -/
def generateAllElementLocators (ev : XPathEval) (parse : String → Option XDoc)
    (sourceXML : String) (options : GenerateLocatorsOptions) : List ElementWithLocators :=
  match xmlToJSON parse sourceXML with
  | none => []
  | some sourceJSON =>
    let parsedDOM := xmlToDOM parse sourceXML
    let ctx : ProcessingContext :=
      { sourceXML := sourceXML,
        platform := options.platform,
        automationName :=
          match options.platform with
          | .android => "uiautomator2"
          | .ios => "xcuitest",
        isNative := options.isNative.getD true,
        viewportSize := options.viewportSize.getD ⟨9999, 9999⟩,
        filters := options.filters.getD FilterOptions.empty,
        parsedDOM := parsedDOM }
    traverseTree ev ctx sourceJSON

/-! ## Theorems settling the claims -/

/-- **C4.** For every emitted element record, `isInViewport` is true iff
`bounds.x ≥ 0 ∧ bounds.y ≥ 0 ∧ bounds.width > 0 ∧ bounds.height > 0 ∧
bounds.x + bounds.width ≤ viewportWidth ∧ bounds.y + bounds.height ≤
viewportHeight` (strict containment, not mere overlap): the record's
`isInViewport` field is exactly `isWithinViewport` of its bounds, and on
non-NaN bounds `isWithinViewport` is that six-way conjunction. -/
theorem C4_viewport_containment :
    (∀ (x y w h : Int) (vp : Viewport),
       isWithinViewport ⟨some x, some y, some w, some h⟩ vp = true ↔
         (0 ≤ x ∧ 0 ≤ y ∧ 0 < w ∧ 0 < h ∧ x + w ≤ vp.width ∧ y + h ≤ vp.height)) ∧
    (∀ (e : JSONElement) (locs : List (String × String)) (ctx : ProcessingContext),
       (transformElement e locs ctx).isInViewport =
         isWithinViewport (parseBounds e ctx.platform) ctx.viewportSize ∧
       (transformElement e locs ctx).bounds = parseBounds e ctx.platform) := by
  constructor
  · intro x y w h vp
    simp [isWithinViewport, jsGe, jsGt, jsLe, jsAdd, and_assoc]
  · intro e locs ctx
    constructor <;> rfl

/-- Closed witness for C4 at a concrete rectangle and viewport. -/
theorem C4_viewport_containment_witness :
    isWithinViewport ⟨some 1, some 2, some 3, some 4⟩ ⟨9, 9⟩ = true :=
  (C4_viewport_containment.1 1 2 3 4 ⟨9, 9⟩).mpr (by norm_num)

/-- **C6.** For every input string, `generateAllElementLocators` never
throws (it is a total function in this embedding); whenever the external
DOM parser reports a failure (malformed, empty or whitespace-only XML),
`xmlToJSON` returns `none` rather than throwing, and the orchestrator
returns the empty list. -/
theorem C6_malformed_xml_empty_result :
    ∀ (ev : XPathEval) (parse : String → Option XDoc) (xml : String)
      (opts : GenerateLocatorsOptions),
      parse xml = none →
      xmlToJSON parse xml = none ∧ generateAllElementLocators ev parse xml opts = [] := by
  intro ev parse xml opts h
  constructor
  · simp [xmlToJSON, h]
  · simp [generateAllElementLocators, xmlToJSON, h]

/-- Closed witness for C6: a parser that fails on the empty string yields
`none` and an empty element list there. -/
theorem C6_malformed_xml_empty_result_witness :
    xmlToJSON (fun _ => none) "" = none ∧
    generateAllElementLocators evalXPRef (fun _ => none) ""
      ⟨MobilePlatform.android, none, none, none⟩ = [] :=
  C6_malformed_xml_empty_result evalXPRef (fun _ => none) ""
    ⟨MobilePlatform.android, none, none, none⟩ rfl

/-- **C10.** In every emitted element record the boolean fields default to
permissive values: `enabled` is false only for the exact string
`"false"`, `displayed` is controlled by `displayed` (Android) or
`visible` (iOS) being exactly `"false"`, and `clickable` holds iff
`clickable`, `accessible`, or `long-clickable` equals `"true"`. -/
theorem C10_boolean_field_defaults :
    ∀ (e : JSONElement) (locs : List (String × String)) (ctx : ProcessingContext),
      ((transformElement e locs ctx).enabled = false ↔
         attrOf e.attributes "enabled" = some "false") ∧
      (ctx.platform = MobilePlatform.android →
        ((transformElement e locs ctx).displayed = false ↔
           attrOf e.attributes "displayed" = some "false")) ∧
      (ctx.platform = MobilePlatform.ios →
        ((transformElement e locs ctx).displayed = false ↔
           attrOf e.attributes "visible" = some "false")) ∧
      ((transformElement e locs ctx).clickable = true ↔
         (attrOf e.attributes "clickable" = some "true" ∨
          attrOf e.attributes "accessible" = some "true" ∨
          attrOf e.attributes "long-clickable" = some "true")) := by
  intro e locs ctx
  refine ⟨?_, ?_, ?_, ?_⟩
  · simp [transformElement]
  · intro hp
    simp [transformElement, hp]
  · intro hp
    simp [transformElement, hp]
  · simp [transformElement, or_assoc]

/-- Closed witness for C10 at a concrete element with no attributes:
`enabled` and `displayed` default to true, `clickable` to false. -/
theorem C10_boolean_field_defaults_witness :
    ((transformElement (.mk [] "a" [] "") [] ⟨"", MobilePlatform.android, "uiautomator2",
        true, ⟨9, 9⟩, FilterOptions.empty, none⟩).displayed = false ↔
      attrOf (JSONElement.mk [] "a" [] "").attributes "displayed" = some "false") :=
  ((C10_boolean_field_defaults (.mk [] "a" [] "") [] ⟨"", MobilePlatform.android, "uiautomator2",
      true, ⟨9, 9⟩, FilterOptions.empty, none⟩).2.1) rfl

/-- Digit-run parsing of an all-digit, nonempty character list. -/
theorem jsParseIntDigits_of_all_digits (cs : List Char) (hne : cs ≠ [])
    (hd : cs.all Char.isDigit = true) :
    jsParseIntDigits cs = some ((digitsToNat cs : Nat) : Int) := by
  have htake : cs.takeWhile Char.isDigit = cs := by
    induction cs with
    | nil => rfl
    | cons c t ih =>
      simp only [List.all_cons, Bool.and_eq_true] at hd
      simp only [List.takeWhile_cons, hd.1, if_true, List.cons.injEq, true_and]
      by_cases ht : t = []
      · simp [ht]
      · exact ih ht hd.2
  simp [jsParseIntDigits, htake, hne]

/-- `jsParseInt` of a nonempty all-digit string is its non-negative value. -/
theorem jsParseInt_of_all_digits (v : String) (hne : v ≠ "")
    (hd : v.data.all Char.isDigit = true) :
    ∃ n : Int, jsParseInt v = some n ∧ 0 ≤ n := by
  have hdn : v.data ≠ [] := by
    intro h
    exact hne (by cases v; simp_all)
  refine ⟨(digitsToNat v.data : Nat), ?_, by positivity⟩
  unfold jsParseInt
  split
  · rename_i rest heq
    rw [heq] at hd
    simp [List.all_cons] at hd
  · exact jsParseIntDigits_of_all_digits v.data hdn hd

/-- **C7 (counterexample).** `parseAndroidBounds` on a reversed-corner
bounds string yields a negative width and height, refuting the claim that
every bounds value produced by the parser has non-negative width/height. -/
theorem C7_counterexample :
    parseAndroidBounds "[5,5][2,2]" =
      ⟨some 5, some 5, some (-3), some (-3)⟩ ∧
    jsLt (parseAndroidBounds "[5,5][2,2]").width (some 0) = true := by
  constructor <;> decide

/-- **C7 (amended).** Bounds produced by the parsers have non-negative
width/height *provided the encodings are well-formed*: an Android bounds
string whose matched corners satisfy `x1 ≤ x2`, `y1 ≤ y2` (and any
unmatched string, which yields the zero rectangle), and iOS width/height
attributes that are absent or unsigned digit numerals; unconditionally, a
bounds with zero (or NaN) width or height is never in viewport. -/
theorem C7_bounds_nonneg_amended :
    (∀ (s : String) (x1 y1 x2 y2 : Nat),
       findBoundsMatch s.data = some (x1, y1, x2, y2) →
       x1 ≤ x2 → y1 ≤ y2 →
       ∃ w h : Int, (parseAndroidBounds s).width = some w ∧
         (parseAndroidBounds s).height = some h ∧ 0 ≤ w ∧ 0 ≤ h) ∧
    (∀ s : String, findBoundsMatch s.data = none →
       parseAndroidBounds s = ⟨some 0, some 0, some 0, some 0⟩) ∧
    (∀ attrs : List (String × String),
       (attrOf attrs "width" = none ∨
        ∃ v, attrOf attrs "width" = some v ∧ v.data.all Char.isDigit = true) →
       ∃ n : Int, (parseIOSBounds attrs).width = some n ∧ 0 ≤ n) ∧
    (∀ attrs : List (String × String),
       (attrOf attrs "height" = none ∨
        ∃ v, attrOf attrs "height" = some v ∧ v.data.all Char.isDigit = true) →
       ∃ n : Int, (parseIOSBounds attrs).height = some n ∧ 0 ≤ n) ∧
    (∀ (b : Bounds) (vp : Viewport),
       b.width = some 0 ∨ b.height = some 0 ∨ b.width = none ∨ b.height = none →
       isWithinViewport b vp = false) := by
  have hios : ∀ (o : Option String),
      (o = none ∨ ∃ v, o = some v ∧ v.data.all Char.isDigit = true) →
      ∃ n : Int, jsParseInt (jsOrStr o "0") = some n ∧ 0 ≤ n := by
    intro o ho
    rcases ho with h | ⟨v, hv, hd⟩
    · subst h
      exact ⟨0, by decide, le_refl 0⟩
    · subst hv
      by_cases hve : v = ""
      · subst hve
        exact ⟨0, by decide, le_refl 0⟩
      · rw [jsOrStr]
        simp only [ne_eq, hve, not_false_iff, bne_iff_ne, if_pos]
        exact jsParseInt_of_all_digits v hve hd
  refine ⟨?_, ?_, ?_, ?_, ?_⟩
  · intro s x1 y1 x2 y2 hm hx hy
    refine ⟨(x2 : Int) - x1, (y2 : Int) - y1, ?_, ?_, by omega, by omega⟩ <;>
      simp [parseAndroidBounds, hm]
  · intro s hm
    simp [parseAndroidBounds, hm]
  · intro attrs h
    exact hios _ h
  · intro attrs h
    exact hios _ h
  · intro b vp h
    rcases h with h | h | h | h <;>
      simp [isWithinViewport, h, jsGt, jsGe, jsLe, jsAdd]

/-- Closed witness for the amended C7 at a well-formed bounds string. -/
theorem C7_bounds_nonneg_amended_witness :
    ∃ w h : Int, (parseAndroidBounds "[0,0][5,5]").width = some w ∧
      (parseAndroidBounds "[0,0][5,5]").height = some h ∧ 0 ≤ w ∧ 0 ≤ h :=
  C7_bounds_nonneg_amended.1 "[0,0][5,5]" 0 0 5 5 (by decide) (by decide) (by decide)

/-- Android element used for the C9 emission scenario: valid `resource-id`
and `class`, path `0.1`, no parsed document available. -/
def c9Elem : JSONElement :=
  .mk [] "android.widget.Button"
    [("resource-id", "R"), ("class", "android.widget.Button")] "0.1"

/-- Raw page source for the C9 scenario, in which `resource-id="R"` occurs
twice (so the regex fallback reports it non-unique). -/
def c9Src : String :=
  "<a resource-id=\"R\"/><b resource-id=\"R\"/>"

/-- **C9.** When no parsed document is available, `isInUiAutomatorScope`
returns true for every element, so UiSelector-syntax and class-name
locators are emitted even for Android elements outside the last
`/hierarchy` child (concrete scenario: `getSuggestedLocators` called with
no locator context); it also returns true when `/hierarchy` has no
element children or the element's path is empty. -/
theorem C9_scope_permissive_without_dom :
    (∀ (ev : XPathEval) (e : JSONElement), isInUiAutomatorScope ev e none = true) ∧
    (∀ (ev : XPathEval) (e : JSONElement) (d : XDoc),
       ev d "/hierarchy/*" = [] → isInUiAutomatorScope ev e (some d) = true) ∧
    (∀ (ev : XPathEval) (e : JSONElement) (d : XDoc),
       e.path = "" → isInUiAutomatorScope ev e (some d) = true) ∧
    ((getSuggestedLocators evalXPRef c9Elem c9Src "uiautomator2" none none).map Prod.fst =
       ["uiautomator", "xpath", "class-name"]) := by
  refine ⟨?_, ?_, ?_, ?_⟩
  · intro ev e
    rfl
  · intro ev e d h
    simp [isInUiAutomatorScope, h]
  · intro ev e d h
    have hsplit : strSplitOn "" "." = [""] := by decide
    simp only [isInUiAutomatorScope, h, hsplit]
    split
    · rfl
    · rfl
  · decide

/-- Closed witness for C9 at a document whose root is not `hierarchy`. -/
theorem C9_scope_permissive_without_dom_witness :
    isInUiAutomatorScope evalXPRef c9Elem (some ⟨some (.node "root" [] [])⟩) = true :=
  C9_scope_permissive_without_dom.2.1 evalXPRef c9Elem ⟨some (.node "root" [] [])⟩ (by decide)

/-- `buildXPath` never returns the empty string (it always starts `//`). -/
theorem buildXPath_ne_empty (e : JSONElement) (sx : String) (b : Bool) :
    buildXPath e sx b ≠ "" := by
  intro h
  have hd := congrArg String.data h
  revert hd
  unfold buildXPath
  split <;>
  · intro hd
    simp only [String.data_append] at hd
    split at hd <;> simp [String.data_append] at hd

/-- The fallback branch always emits the original XPath. -/
theorem addXPathFallback_ne_nil (ev : XPathEval) (xp : String) (ctx : LocatorContext)
    (t : Option (List Nat)) : addXPathFallback ev xp ctx t ≠ [] := by
  unfold addXPathFallback
  simp

theorem addXPathLocator_ne_nil (ev : XPathEval) (xp : String) (ctx : LocatorContext)
    (t : Option (List Nat)) : addXPathLocator ev xp ctx t ≠ [] := by
  unfold addXPathLocator
  dsimp only
  split
  · simp
  · split
    · simp
    · exact addXPathFallback_ne_nil ev xp ctx t

/-- Every locator in the fallback branch has strategy `xpath`. -/
theorem mem_addXPathFallback_strategy (ev : XPathEval) (xp : String) (ctx : LocatorContext)
    (t : Option (List Nat)) (strat v : String)
    (h : (strat, v) ∈ addXPathFallback ev xp ctx t) : strat = "xpath" := by
  unfold addXPathFallback at h
  rw [List.mem_append] at h
  rcases h with h | h
  · split at h
    · split at h
      · simp at h
        exact h.1
      · simp at h
    · simp at h
  · simp at h
    exact h.1

theorem mem_addXPathLocator_strategy (ev : XPathEval) (xp : String) (ctx : LocatorContext)
    (t : Option (List Nat)) (strat v : String)
    (h : (strat, v) ∈ addXPathLocator ev xp ctx t) : strat = "xpath" := by
  unfold addXPathLocator at h
  dsimp only at h
  split at h
  · simp at h
    exact h.1
  · split at h
    · simp at h
      exact h.1
    · exact mem_addXPathFallback_strategy ev xp ctx t strat v h

/-- `getComplexSuggestedLocators` always produces at least one locator
(the XPath block always contributes). -/
theorem getComplexSuggestedLocators_ne_nil (ev : XPathEval) (e : JSONElement)
    (ctx : LocatorContext) (an : String) (t : Option (List Nat)) :
    getComplexSuggestedLocators ev e ctx an t ≠ [] := by
  intro h
  unfold getComplexSuggestedLocators at h
  split at h <;>
  · simp only [List.append_eq_nil] at h
    have hxp : buildXPath e ctx.sourceXML true ≠ "" := buildXPath_ne_empty e ctx.sourceXML true
    have hxp2 : buildXPath e ctx.sourceXML false ≠ "" := buildXPath_ne_empty e ctx.sourceXML false
    have haddne := addXPathLocator_ne_nil ev (buildXPath e ctx.sourceXML true) ctx t
    have haddne2 := addXPathLocator_ne_nil ev (buildXPath e ctx.sourceXML false) ctx t
    simp_all [bne_iff_ne]
    split at h <;> simp_all [List.append_eq_nil]

/-- Deduplication of a nonempty list with nothing yet seen is nonempty. -/
theorem dedupByValue_nil_ne_nil (l : List (String × String)) (h : l ≠ []) :
    dedupByValue [] l ≠ [] := by
  match l with
  | [] => exact absurd rfl h
  | x :: xs =>
    unfold dedupByValue
    simp

/-- `getSuggestedLocators` always suggests at least one locator. -/
theorem getSuggestedLocators_ne_nil (ev : XPathEval) (e : JSONElement)
    (sx an : String) (ctx? : Option LocatorContext) (t : Option (List Nat)) :
    getSuggestedLocators ev e sx an ctx? t ≠ [] := by
  unfold getSuggestedLocators
  apply dedupByValue_nil_ne_nil
  intro h
  rcases List.append_eq_nil.mp h with ⟨-, h2⟩
  exact getComplexSuggestedLocators_ne_nil ev e _ an t h2

/-- The accumulator of `locatorsToObjectGo` never shrinks. -/
theorem locatorsToObjectGo_length_le (l : List (String × String)) :
    ∀ acc : List (String × String), acc.length ≤ (locatorsToObjectGo acc l).length := by
  induction l with
  | nil => intro acc; simp [locatorsToObjectGo]
  | cons x xs ih =>
    intro acc
    rw [locatorsToObjectGo]
    split
    · exact ih acc
    · calc acc.length ≤ (acc ++ [(x.1, x.2)]).length := by simp
        _ ≤ _ := ih _

/-- `locatorsToObject` of a nonempty list is nonempty. -/
theorem locatorsToObject_ne_nil (l : List (String × String)) (h : l ≠ []) :
    locatorsToObject l ≠ [] := by
  match l with
  | [] => exact absurd rfl h
  | x :: xs =>
    unfold locatorsToObject locatorsToObjectGo
    split
    · simp at *
    · intro hnil
      have := locatorsToObjectGo_length_le xs ([] ++ [(x.1, x.2)])
      rw [hnil] at this
      simp at this

/-- An element passing `shouldProcess` is emitted with its suggested
locators (the zero-locator early returns never fire). -/
theorem processElement_eq_of_shouldProcess (ev : XPathEval) (e : JSONElement)
    (ctx : ProcessingContext) (h : shouldProcess e ctx = true) :
    processElement ev e ctx =
      [transformElement e
        (getSuggestedLocators ev e ctx.sourceXML ctx.automationName
          (some ⟨ctx.sourceXML, ctx.parsedDOM, ctx.platform == MobilePlatform.android⟩)
          (match ctx.parsedDOM with
           | some d => findDOMNodeByPath d e.path
           | none => none)) ctx] := by
  unfold processElement
  rw [h]
  simp only [Bool.not_true, Bool.false_eq_true, if_false]
  have h1 := getSuggestedLocators_ne_nil ev e ctx.sourceXML ctx.automationName
    (some ⟨ctx.sourceXML, ctx.parsedDOM, ctx.platform == MobilePlatform.android⟩)
    (match ctx.parsedDOM with
     | some d => findDOMNodeByPath d e.path
     | none => none)
  rw [if_neg, if_neg]
  · simp [transformElement]
    intro hobj
    exact locatorsToObject_ne_nil _ h1 hobj
  · simp
    exact h1

/-- Document for the C5 scenario: a layout container (`LinearLayout`)
bearing text, under the `hierarchy` root. -/
def c5Doc : XNode :=
  .node "hierarchy" []
    [.node "android.widget.LinearLayout" [("text", "Hi"), ("bounds", "[0,0][5,5]")] []]

/-- External parser stub for the C5 scenario. -/
def c5Parse : String → Option XDoc := fun _ => some ⟨some c5Doc⟩

/-- Default Android filters with `includeContainers = false` (the
configuration that excludes the whole container tag list). -/
def c5Opts : GenerateLocatorsOptions :=
  ⟨MobilePlatform.android, none, some (getDefaultFilters MobilePlatform.android false), none⟩

/-- **C5.** A node is processed iff `shouldIncludeElement` passes or it is
a layout container with meaningful content; a container with meaningful
content always contributes a record (locator generation never comes back
empty), and concretely a text-bearing `LinearLayout` appears in the output
even under `includeContainers = false` default filters. -/
theorem C5_inclusion_gate :
    (∀ (e : JSONElement) (ctx : ProcessingContext),
       shouldProcess e ctx =
         (shouldIncludeElement e ctx.filters ctx.isNative ctx.automationName ||
          (isLayoutContainer e ctx.platform && hasMeaningfulContent e ctx.platform))) ∧
    (∀ (ev : XPathEval) (e : JSONElement) (ctx : ProcessingContext),
       isLayoutContainer e ctx.platform = true →
       hasMeaningfulContent e ctx.platform = true →
       processElement ev e ctx ≠ []) ∧
    ((generateAllElementLocators evalXPRef c5Parse "X" c5Opts).map (fun r => r.tagName) =
       ["android.widget.LinearLayout"]) := by
  refine ⟨?_, ?_, ?_⟩
  · intro e ctx
    unfold shouldProcess
    split
    · rename_i hin
      rw [hin]
      simp
    · rename_i hin
      rw [Bool.not_eq_true] at hin
      rw [hin]
      simp
  · intro ev e ctx hc hm
    have hsp : shouldProcess e ctx = true := by
      unfold shouldProcess
      split
      · rfl
      · rw [hc, hm]
        rfl
    rw [processElement_eq_of_shouldProcess ev e ctx hsp]
    simp
  · decide

/-- Closed witness for C5: the text-bearing container is emitted. -/
theorem C5_inclusion_gate_witness :
    processElement evalXPRef
      (.mk [] "android.widget.LinearLayout" [("text", "Hi"), ("bounds", "[0,0][5,5]")] "0")
      ⟨"X", MobilePlatform.android, "uiautomator2", true, ⟨9999, 9999⟩,
        getDefaultFilters MobilePlatform.android false, some ⟨some c5Doc⟩⟩ ≠ [] :=
  C5_inclusion_gate.2.1 evalXPRef
    (.mk [] "android.widget.LinearLayout" [("text", "Hi"), ("bounds", "[0,0][5,5]")] "0")
    ⟨"X", MobilePlatform.android, "uiautomator2", true, ⟨9999, 9999⟩,
      getDefaultFilters MobilePlatform.android false, some ⟨some c5Doc⟩⟩
    (by decide) (by decide)

/-- Document for the C8 counterexample: an iOS layout container
(`XCUIElementTypeOther`) with a label but `visible="false"`. -/
def c8Doc : XNode :=
  .node "XCUIElementTypeApplication" []
    [.node "XCUIElementTypeOther"
      [("label", "Hi"), ("visible", "false"), ("x", "0"), ("y", "0"),
       ("width", "5"), ("height", "5")] []]

/-- External parser stub for the C8 counterexample. -/
def c8Parse : String → Option XDoc := fun _ => some ⟨some c8Doc⟩

/-- Default options for the C8 counterexample (no filters supplied, so the
destructuring default `visibleOnly = true` applies). -/
def c8Opts : GenerateLocatorsOptions := ⟨MobilePlatform.ios, none, none, none⟩

/-- **C8 (counterexample).** An iOS element with `visible="false"` that is
a layout container with meaningful content is *not* excluded: it appears
in the orchestrator's output (its record is the one with
`displayed = false`), refuting the claim that every `visible="false"`
element is excluded entirely under default filters. -/
theorem C8_counterexample :
    ((generateAllElementLocators evalXPRef c8Parse "Y" c8Opts).map
        (fun r => (r.tagName, r.displayed)) =
      [("XCUIElementTypeApplication", true), ("XCUIElementTypeOther", false)]) ∧
    isLayoutContainer (.mk []
      "XCUIElementTypeOther"
      [("label", "Hi"), ("visible", "false"), ("x", "0"), ("y", "0"),
       ("width", "5"), ("height", "5")] "0") MobilePlatform.ios = true ∧
    hasMeaningfulContent (.mk []
      "XCUIElementTypeOther"
      [("label", "Hi"), ("visible", "false"), ("x", "0"), ("y", "0"),
       ("width", "5"), ("height", "5")] "0") MobilePlatform.ios = true := by
  refine ⟨by decide, by decide, by decide⟩

/-- **C8 (amended).** For every iOS element whose `visible` attribute is
`"false"`, processing under the default filter configuration
(`visibleOnly = true`, automation name `xcuitest`) excludes the element -
unless it is a layout container with meaningful content (the case the
counterexample exhibits). -/
theorem C8_invisible_ios_excluded_amended :
    ∀ (ev : XPathEval) (e : JSONElement) (ctx : ProcessingContext),
      ctx.platform = MobilePlatform.ios →
      ctx.automationName = "xcuitest" →
      ctx.filters = FilterOptions.empty →
      attrOf e.attributes "visible" = some "false" →
      (isLayoutContainer e MobilePlatform.ios && hasMeaningfulContent e MobilePlatform.ios) = false →
      processElement ev e ctx = [] := by
  intro ev e ctx hp han hfil hvis hbyp
  have hinc : shouldIncludeElement e ctx.filters ctx.isNative ctx.automationName = false := by
    rw [hfil, han]
    unfold shouldIncludeElement
    simp only [FilterOptions.empty, Option.getD_none]
    split
    · rfl
    · split
      · rfl
      · split
        · rfl
        · split
          · rfl
          · rename_i hcond
            exfalso
            apply hcond
            simp [hvis]
            exact Or.inr (by decide)
  have hsp : shouldProcess e ctx = false := by
    unfold shouldProcess
    rw [hinc]
    simp only [Bool.false_eq_true, if_false]
    rw [hp]
    exact hbyp
  unfold processElement
  rw [hsp]
  rfl

/-- Closed witness for the amended C8: an invisible iOS button (not a
container) is excluded. -/
theorem C8_invisible_ios_excluded_amended_witness :
    processElement evalXPRef
      (.mk [] "XCUIElementTypeButton" [("visible", "false"), ("name", "Go")] "0")
      ⟨"Y", MobilePlatform.ios, "xcuitest", true, ⟨9999, 9999⟩,
        FilterOptions.empty, some ⟨some c8Doc⟩⟩ = [] :=
  C8_invisible_ios_excluded_amended evalXPRef
    (.mk [] "XCUIElementTypeButton" [("visible", "false"), ("name", "Go")] "0")
    ⟨"Y", MobilePlatform.ios, "xcuitest", true, ⟨9999, 9999⟩,
      FilterOptions.empty, some ⟨some c8Doc⟩⟩
    rfl rfl rfl (by decide) (by decide)

/-- The ancestor walk visits at most `fuel` (= `maxDepth`) levels. -/
theorem hierLoop_length_le (ev : XPathEval) (ctx : LocatorContext) (d : XDoc) :
    ∀ (fuel : Nat) (p : Option (List Nat)), (hierLoop ev ctx d p fuel).length ≤ fuel := by
  intro fuel
  induction fuel with
  | zero =>
    intro p
    cases p <;> simp [hierLoop]
  | succ n ih =>
    intro p
    cases p with
    | none => simp [hierLoop]
    | some q =>
      rw [hierLoop]
      split
      · simp
      · split
        · simp
        · simpa using Nat.succ_le_succ (ih (parentPathOf q))

/-- Document for the C1 counterexample: two geometry-identical `a`
elements (same tag, same `bounds`) under the `hierarchy` root. -/
def c1Doc : XDoc :=
  ⟨some (.node "hierarchy" []
    [.node "a" [("bounds", "[0,0][5,5]")] [], .node "a" [("bounds", "[0,0][5,5]")] []])⟩

/-- Locator context for the C1 counterexample (parsed document present). -/
def c1Ctx : LocatorContext := ⟨"", some c1Doc, true⟩

/-- The candidate XPath of the C1 counterexample (matches both elements). -/
def c1XP : String := "//*[@bounds=\"[0,0][5,5]\"]"

/-- **C1 (counterexample).** The candidate XPath matches two nodes and the
target is the *second* match, yet the emitted locator is `(xpath)[1]`
(the first geometry-identical match steals the index), not `(xpath)[2]`
as stated: `n` is not the target's position. -/
theorem C1_counterexample :
    evalXPRef c1Doc c1XP = [[0], [1]] ∧
    (evalXPRef c1Doc c1XP).get? 1 = some [1] ∧
    addXPathLocator evalXPRef c1XP c1Ctx (some [1]) =
      [("xpath", generateIndexedXPath c1XP 1)] ∧
    addXPathLocator evalXPRef c1XP c1Ctx (some [1]) ≠
      [("xpath", generateIndexedXPath c1XP 2)] := by
  refine ⟨by decide, by decide, by decide, by decide⟩

/-- **C1 (amended).** With a parsed document available,
`addXPathLocator` behaves as follows on a candidate XPath: exactly one
match - emitted verbatim; more than one match and some match is
identified with the target (same node, or same tag and geometry via
`isSameElement`) - emitted as `(xpath)[n]` with `n` the 1-based position
of the *first* such match; otherwise - when a target node is supplied, a
hierarchical ancestor XPath of maximum depth 3 is attempted
(`buildHierarchicalXPath` with `maxDepth = 3`, whose ancestor walk visits
at most 3 levels), and the original non-unique XPath is still emitted as
a last resort. -/
theorem C1_addXPathLocator_amended :
    ∀ (ev : XPathEval) (d : XDoc) (ctx : LocatorContext) (xp : String)
      (t : Option (List Nat)),
      ctx.parsedDOM = some d →
      (((ev d xp).length = 1 → addXPathLocator ev xp ctx t = [("xpath", xp)]) ∧
       (∀ (tn : List Nat) (i : Nat), t = some tn →
          (ev d xp).length ≠ 0 → (ev d xp).length ≠ 1 →
          (ev d xp).findIdx? (fun p => p == tn || isSameElement d p tn) = some i →
          addXPathLocator ev xp ctx t = [("xpath", generateIndexedXPath xp (i + 1))]) ∧
       ((ev d xp).length = 0 ∨
          ((ev d xp).length ≠ 1 ∧
           (∀ tn, t = some tn →
              (ev d xp).findIdx? (fun p => p == tn || isSameElement d p tn) = none)) →
          addXPathLocator ev xp ctx t =
            ((t.bind (fun tn => buildHierarchicalXPath ev ctx tn 3)).toList.map
               (fun hier => ("xpath", hier))) ++ [("xpath", xp)]) ∧
       (∀ tn, (hierLoop ev ctx d (some tn) 3).length ≤ 3)) := by
  intro ev d ctx xp t hdom
  have hcu : ∀ (tt : Option (List Nat)),
      checkUniqueness ev ctx xp tt = checkXPathUniqueness ev d xp tt := by
    intro tt
    unfold checkUniqueness
    rw [hdom]
  refine ⟨?_, ?_, ?_, ?_⟩
  · intro hone
    unfold addXPathLocator
    rw [hcu]
    unfold checkXPathUniqueness
    simp only [hone]
    rfl
  · intro tn i ht hzero hone hidx
    subst ht
    unfold addXPathLocator
    rw [hcu]
    unfold checkXPathUniqueness
    simp only [beq_iff_eq, hidx]
    rw [if_neg hzero, if_neg hone]
    rfl
  · intro hcase
    have hfb : addXPathFallback ev xp ctx t =
        ((t.bind (fun tn => buildHierarchicalXPath ev ctx tn 3)).toList.map
           (fun hier => ("xpath", hier))) ++ [("xpath", xp)] := by
      unfold addXPathFallback
      rw [hdom]
      cases t with
      | none => rfl
      | some tn =>
        cases h' : buildHierarchicalXPath ev ctx tn 3 <;> simp [h', Option.toList]
    unfold addXPathLocator
    rw [hcu]
    unfold checkXPathUniqueness
    rcases hcase with hzero | ⟨hone, hidx⟩
    · simp only [hzero]
      exact hfb
    · have h1 : ((ev d xp).length == 1) = false := by simpa using hone
      cases hl : ((ev d xp).length == 0) with
      | true =>
        simp only [hl, if_true]
        exact hfb
      | false =>
        simp only [hl, h1, Bool.false_eq_true, if_false]
        cases t with
        | none =>
          exact hfb
        | some tn =>
          simp only [hidx tn rfl]
          exact hfb
  · intro tn
    exact hierLoop_length_le ev ctx d 3 (some tn)

/-- Document for the C1 witness: a single matching element. -/
def c1wDoc : XDoc := ⟨some (.node "hierarchy" [] [.node "a" [("resource-id", "R")] []])⟩

/-- Locator context for the C1 witness. -/
def c1wCtx : LocatorContext := ⟨"", some c1wDoc, true⟩

/-- Closed witness for the amended C1: a uniquely-matching XPath is
emitted verbatim. -/
theorem C1_addXPathLocator_amended_witness :
    addXPathLocator evalXPRef "//*[@resource-id=\"R\"]" c1wCtx (some [0]) =
      [("xpath", "//*[@resource-id=\"R\"]")] :=
  (C1_addXPathLocator_amended evalXPRef c1wDoc c1wCtx "//*[@resource-id=\"R\"]"
    (some [0]) rfl).1 (by decide)

/-- Deduplication only keeps locators of the input list. -/
theorem mem_dedupByValue (p : String × String) :
    ∀ (seen : List String) (l : List (String × String)),
      p ∈ dedupByValue seen l → p ∈ l := by
  intro seen l
  induction l generalizing seen with
  | nil => simp [dedupByValue]
  | cons x xs ih =>
    intro h
    rw [dedupByValue] at h
    split at h
    · exact List.mem_cons_of_mem x (ih _ h)
    · rcases List.mem_cons.mp h with h' | h'
      · exact h' ▸ List.mem_cons_self x xs
      · exact List.mem_cons_of_mem x (ih _ h')

/-- A locator from the resource-id block has strategy `id` and is only
emitted in UiAutomator scope. -/
theorem mem_simpleAndroidId_scope (ev : XPathEval) (ctx : LocatorContext)
    (attrs : List (String × String)) (scope : Bool) (t : Option (List Nat))
    (strat v : String) (h : (strat, v) ∈ simpleAndroidId ev ctx attrs scope t) :
    strat = "id" ∧ scope = true := by
  unfold simpleAndroidId at h
  split at h
  · split at h
    · dsimp only at h
      split at h
      · rename_i hcond
        rw [Bool.and_eq_true] at hcond
        simp at h
        exact ⟨h.1, hcond.2⟩
      · split at h
        · split at h
          · rename_i hscope
            simp at h
            exact ⟨h.1, hscope⟩
          · simp at h
        · simp at h
    · simp at h
  · simp at h

/-- A locator from the text block has strategy `text` and is only emitted
in UiAutomator scope. -/
theorem mem_simpleAndroidText_scope (ev : XPathEval) (ctx : LocatorContext)
    (attrs : List (String × String)) (scope : Bool) (t : Option (List Nat))
    (strat v : String) (h : (strat, v) ∈ simpleAndroidText ev ctx attrs scope t) :
    strat = "text" ∧ scope = true := by
  unfold simpleAndroidText at h
  split at h
  · split at h
    · dsimp only at h
      split at h
      · rename_i hcond
        rw [Bool.and_eq_true] at hcond
        simp at h
        exact ⟨h.1, hcond.2⟩
      · split at h
        · split at h
          · rename_i hscope
            simp at h
            exact ⟨h.1, hscope⟩
          · simp at h
        · simp at h
    · simp at h
  · simp at h

/-- A locator from the content-desc block is an accessibility id for the
element's `content-desc`, emitted only when its attribute XPath is
reported unique. -/
theorem mem_simpleAndroidContentDesc_unique (ev : XPathEval) (ctx : LocatorContext)
    (attrs : List (String × String)) (t : Option (List Nat))
    (strat v : String) (h : (strat, v) ∈ simpleAndroidContentDesc ev ctx attrs t) :
    ∃ cd, attrOf attrs "content-desc" = some cd ∧ isValidValueS cd = true ∧
      (checkUniqueness ev ctx ("//*[@content-desc=\"" ++ cd ++ "\"]") t).isUnique = true ∧
      strat = "accessibility-id" ∧ v = "~" ++ cd := by
  unfold simpleAndroidContentDesc at h
  split at h
  · rename_i cd hcd
    split at h
    · rename_i hvalid
      dsimp only at h
      split at h
      · rename_i huniq
        simp at h
        exact ⟨cd, hcd, hvalid, huniq, h.1, h.2⟩
      · simp at h
    · simp at h
  · simp at h

/-- A locator from the iOS name block is an accessibility id for the
element's `name`, emitted only when its attribute XPath is unique. -/
theorem mem_simpleIOSName_unique (ev : XPathEval) (ctx : LocatorContext)
    (attrs : List (String × String)) (t : Option (List Nat))
    (strat v : String) (h : (strat, v) ∈ simpleIOSName ev ctx attrs t) :
    ∃ nm, attrOf attrs "name" = some nm ∧ isValidValueS nm = true ∧
      (checkUniqueness ev ctx ("//*[@name=\"" ++ nm ++ "\"]") t).isUnique = true ∧
      strat = "accessibility-id" ∧ v = "~" ++ nm := by
  unfold simpleIOSName at h
  split at h
  · rename_i nm hnm
    split at h
    · rename_i hvalid
      dsimp only at h
      split at h
      · rename_i huniq
        simp at h
        exact ⟨nm, hnm, hvalid, huniq, h.1, h.2⟩
      · simp at h
    · simp at h
  · simp at h

/-- A locator from the iOS label block is a label predicate string,
emitted only when its attribute XPath is unique. -/
theorem mem_simpleIOSLabel_unique (ev : XPathEval) (ctx : LocatorContext)
    (attrs : List (String × String)) (t : Option (List Nat))
    (strat v : String) (h : (strat, v) ∈ simpleIOSLabel ev ctx attrs t) :
    ∃ lb, attrOf attrs "label" = some lb ∧ isValidValueS lb = true ∧
      (checkUniqueness ev ctx ("//*[@label=\"" ++ escapeText lb ++ "\"]") t).isUnique = true ∧
      strat = "predicate-string" ∧
      v = "-ios predicate string:label == \"" ++ escapeText lb ++ "\"" := by
  unfold simpleIOSLabel at h
  split at h
  · rename_i lb hlb
    split at h
    · rename_i hvalid
      rw [Bool.and_eq_true] at hvalid
      dsimp only at h
      split at h
      · rename_i huniq
        simp at h
        exact ⟨lb, hlb, hvalid.1, huniq, h.1, h.2⟩
      · simp at h
    · simp at h
  · simp at h

/-- A locator from the iOS value block is a value predicate string,
emitted only when its attribute XPath is unique. -/
theorem mem_simpleIOSValue_unique (ev : XPathEval) (ctx : LocatorContext)
    (attrs : List (String × String)) (t : Option (List Nat))
    (strat v : String) (h : (strat, v) ∈ simpleIOSValue ev ctx attrs t) :
    ∃ vv, attrOf attrs "value" = some vv ∧ isValidValueS vv = true ∧
      (checkUniqueness ev ctx ("//*[@value=\"" ++ escapeText vv ++ "\"]") t).isUnique = true ∧
      strat = "predicate-string" ∧
      v = "-ios predicate string:value == \"" ++ escapeText vv ++ "\"" := by
  unfold simpleIOSValue at h
  split at h
  · rename_i vv hvv
    split at h
    · rename_i hvalid
      dsimp only at h
      split at h
      · rename_i huniq
        simp at h
        exact ⟨vv, hvv, hvalid, huniq, h.1, h.2⟩
      · simp at h
    · simp at h
  · simp at h

/-- Analysis of the Android complex locators: every entry is an XPath, or
a UiSelector-based locator (`uiautomator`/`class-name`) emitted only in
UiAutomator scope. -/
theorem mem_getComplexSuggestedLocators_android (ev : XPathEval) (e : JSONElement)
    (ctx : LocatorContext) (an : String) (t : Option (List Nat)) (strat v : String)
    (hand : jsIncludes (strToLower an) "uiautomator" = true)
    (h : (strat, v) ∈ getComplexSuggestedLocators ev e ctx an t) :
    strat = "xpath" ∨
      ((strat = "uiautomator" ∨ strat = "class-name") ∧
       isInUiAutomatorScope ev e ctx.parsedDOM = true) := by
  unfold getComplexSuggestedLocators at h
  dsimp only at h
  rw [hand] at h
  simp only [eq_self_iff_true, if_true, List.mem_append] at h
  rcases h with (h | h) | h
  · split at h
    · rename_i hscope
      split at h
      · simp at h
        exact Or.inr ⟨Or.inl h.1, by simpa using hscope⟩
      · simp at h
    · simp at h
  · split at h
    · exact Or.inl (mem_addXPathLocator_strategy ev _ ctx t strat v h)
    · simp at h
  · split at h
    · rename_i hcond
      rw [Bool.and_eq_true] at hcond
      simp at h
      exact Or.inr ⟨Or.inr h.1, hcond.1⟩
    · simp at h

/-- The splitting loop never returns an empty list of segments. -/
theorem splitAux_ne_nil (sep : List Char) :
    ∀ (fuel : Nat) (cur cs : List Char), splitAux sep cur cs fuel ≠ [] := by
  intro fuel
  induction fuel with
  | zero =>
    intro cur cs
    cases cs <;> simp [splitAux]
  | succ n ih =>
    intro cur cs
    cases cs with
    | nil => simp [splitAux]
    | cons c rest =>
      rw [splitAux]
      split
      · simp
      · exact ih _ _

/-- JS `split` always yields at least one segment. -/
theorem strSplitOn_ne_nil (s sep : String) : strSplitOn s sep ≠ [] := by
  unfold strSplitOn
  split
  · simp
  · simp [splitAux_ne_nil]

/-- Document for the C2 counterexample: the root element is not
`hierarchy`, so `/hierarchy/*` evaluates to no nodes. -/
def c2xDoc : XDoc := ⟨some (.node "root" [] [.node "a" [("class", "C")] []])⟩

/-- The Android element of the C2 counterexample (path `0`). -/
def c2xElem : JSONElement := .mk [] "a" [("class", "C")] "0"

/-- Locator context of the C2 counterexample (parsed document present). -/
def c2xCtx : LocatorContext := ⟨"", some c2xDoc, true⟩

/-- **C2 (counterexample).** With a parsed document available whose
`/hierarchy` has no element children, a `uiautomator` locator is emitted
for an element whose path's first index is `0`, although `0` differs from
(number of `/hierarchy` element children − 1) = `-1`: the claimed "only
if" condition fails. -/
theorem C2_counterexample :
    ((getSuggestedLocators evalXPRef c2xElem "" "uiautomator2" (some c2xCtx) none).map
        Prod.fst = ["uiautomator", "xpath"]) ∧
    evalXPRef c2xDoc "/hierarchy/*" = [] ∧
    c2xElem.path = "0" ∧
    jsParseInt "0" = some 0 := by
  refine ⟨by decide, by decide, by decide, by decide⟩

/-- Element, document and context for the amended-C2 "may still receive
accessibility-id and xpath" scenario: a status-bar-like element outside
the last `/hierarchy` child with a globally unique `content-desc`. -/
def c2eDoc : XDoc :=
  ⟨some (.node "hierarchy" []
    [.node "s" [] [.node "a" [("content-desc", "CD"), ("class", "C")] []],
     .node "t" [] []])⟩

/-- The out-of-scope element of the scenario (path `0.0`). -/
def c2eElem : JSONElement := .mk [] "a" [("content-desc", "CD"), ("class", "C")] "0.0"

/-- Locator context for the scenario. -/
def c2eCtx : LocatorContext := ⟨"", some c2eDoc, true⟩

/-- **C2 (amended).** For an Android element with a parsed document:
(1) any locator of strategy `id`, `text`, `uiautomator` or `class-name`
(UiSelector syntax) is emitted only if `isInUiAutomatorScope` holds;
(2) when `/hierarchy` has at least one element child, the scope check
holds iff the path's first segment is empty or parses to (number of
`/hierarchy` element children − 1) - so outside the last `/hierarchy`
subtree no UiSelector locator is ever emitted;
(3) such an out-of-scope element may still receive `accessibility-id`
and `xpath` locators (concrete scenario). -/
theorem C2_uiautomator_scope_amended :
    (∀ (ev : XPathEval) (e : JSONElement) (ctx : LocatorContext) (d : XDoc)
       (sx an : String) (t : Option (List Nat)) (strat v : String),
       ctx.parsedDOM = some d →
       jsIncludes (strToLower an) "uiautomator" = true →
       (strat, v) ∈ getSuggestedLocators ev e sx an (some ctx) t →
       (strat = "id" ∨ strat = "text" ∨ strat = "uiautomator" ∨ strat = "class-name") →
       isInUiAutomatorScope ev e (some d) = true) ∧
    (∀ (ev : XPathEval) (e : JSONElement) (d : XDoc),
       (ev d "/hierarchy/*").length ≠ 0 →
       (isInUiAutomatorScope ev e (some d) = true ↔
         ∃ p0 rest, strSplitOn e.path "." = p0 :: rest ∧
           (p0 = "" ∨ jsParseInt p0 = some (((ev d "/hierarchy/*").length : Int) - 1)))) ∧
    (((getSuggestedLocators evalXPRef c2eElem "" "uiautomator2" (some c2eCtx)
         (some [0, 0])).map Prod.fst = ["accessibility-id", "xpath"]) ∧
     isInUiAutomatorScope evalXPRef c2eElem (some c2eDoc) = false) := by
  refine ⟨?_, ?_, by decide, by decide⟩
  · intro ev e ctx d sx an t strat v hdom hand hmem hstrat
    unfold getSuggestedLocators at hmem
    rw [Option.getD_some] at hmem
    have hmem' := mem_dedupByValue _ _ _ hmem
    rw [← hdom]
    rw [List.mem_append] at hmem'
    rcases hmem' with hm | hm
    · unfold getSimpleSuggestedLocators at hm
      dsimp only at hm
      rw [hand] at hm
      simp only [eq_self_iff_true, if_true, List.mem_append] at hm
      rcases hm with (hm | hm) | hm
      · exact (mem_simpleAndroidId_scope _ _ _ _ _ _ _ hm).2
      · rcases mem_simpleAndroidContentDesc_unique _ _ _ _ _ _ hm with
          ⟨cd, -, -, -, hs, -⟩
        subst hs
        rcases hstrat with h | h | h | h <;> simp at h
      · exact (mem_simpleAndroidText_scope _ _ _ _ _ _ _ hm).2
    · rcases mem_getComplexSuggestedLocators_android _ _ _ _ _ _ _ hand hm with
        hx | ⟨-, hsc⟩
      · subst hx
        rcases hstrat with h | h | h | h <;> simp at h
      · exact hsc
  · intro ev e d h0
    unfold isInUiAutomatorScope
    have h0' : ((ev d "/hierarchy/*").length == 0) = false := by simpa using h0
    simp only [h0', Bool.false_eq_true, if_false]
    cases hsp : strSplitOn e.path "." with
    | nil => exact absurd hsp (strSplitOn_ne_nil e.path ".")
    | cons p0 rest =>
      constructor
      · intro hl
        dsimp only at hl
        refine ⟨p0, rest, rfl, ?_⟩
        by_cases hp0 : p0 = ""
        · exact Or.inl hp0
        · right
          rw [if_neg (by simpa using hp0)] at hl
          cases hpi : jsParseInt p0 with
          | none => rw [hpi] at hl; simp at hl
          | some k =>
            rw [hpi] at hl
            simp only [beq_iff_eq] at hl
            exact congrArg some hl
      · rintro ⟨p0', rest', heq, hcond⟩
        injection heq with heq1 heq2
        subst heq1
        dsimp only
        rcases hcond with hp0 | hpi
        · rw [if_pos (by simpa using hp0)]
        · by_cases hp0 : p0 = ""
          · rw [if_pos (by simpa using hp0)]
          · rw [if_neg (by simpa using hp0), hpi]
            simp

/-- In-scope document for the C2 witness. -/
def c2wDoc : XDoc :=
  ⟨some (.node "hierarchy" []
    [.node "android.widget.LinearLayout" [("text", "Hi"), ("bounds", "[0,0][5,5]")] []])⟩

/-- In-scope element for the C2 witness (path `0`, the last `/hierarchy` child). -/
def c2wElem : JSONElement :=
  .mk [] "android.widget.LinearLayout" [("text", "Hi"), ("bounds", "[0,0][5,5]")] "0"

/-- Locator context for the C2 witness. -/
def c2wCtx : LocatorContext := ⟨"X", some c2wDoc, true⟩

/-- Closed witness for the amended C2: a `text` (UiSelector) locator is
emitted for an in-scope element, and indeed the scope check holds there. -/
theorem C2_uiautomator_scope_amended_witness :
    isInUiAutomatorScope evalXPRef c2wElem (some c2wDoc) = true :=
  C2_uiautomator_scope_amended.1 evalXPRef c2wElem c2wCtx c2wDoc "X" "uiautomator2"
    (some [0]) "text" "android=new UiSelector().text(\"Hi\")" rfl (by decide)
    (by decide) (Or.inr (Or.inl rfl))

/-- Document for the C3 counterexample: a duplicated `resource-id="X"`,
with the target element in the *first* `/hierarchy` subtree (outside
UiAutomator scope). -/
def c3Doc : XDoc :=
  ⟨some (.node "hierarchy" []
    [.node "s" [] [.node "a" [("resource-id", "X")] []],
     .node "t" [] [.node "a" [("resource-id", "X")] []]])⟩

/-- The out-of-scope element of the C3 counterexample (path `0.0`). -/
def c3Elem : JSONElement := .mk [] "a" [("resource-id", "X")] "0.0"

/-- Locator context of the C3 counterexample. -/
def c3Ctx : LocatorContext := ⟨"", some c3Doc, true⟩

/-- **C3 (counterexample).** A non-unique Android `resource-id` whose
target index is known (`index = 1`) produces *no* `id` locator at all,
because the element is outside UiAutomator scope - refuting the claim
that such candidates are emitted with an `.instance(index-1)` suffix. -/
theorem C3_counterexample :
    getSimpleSuggestedLocators evalXPRef c3Elem c3Ctx "uiautomator2" (some [0, 0]) = [] ∧
    (checkUniqueness evalXPRef c3Ctx "//*[@resource-id=\"X\"]" (some [0, 0])).isUnique = false ∧
    (checkUniqueness evalXPRef c3Ctx "//*[@resource-id=\"X\"]" (some [0, 0])).index = some 1 ∧
    isInUiAutomatorScope evalXPRef c3Elem (some c3Doc) = false := by
  refine ⟨by decide, by decide, by decide, by decide⟩

/-- **C3 (amended).** Simple accessibility-id locators (Android
`content-desc`, iOS `name`) and simple iOS predicate-string locators
(label/value) are emitted only when the `//*[@attr="value"]` uniqueness
check reports unique, and are never index-disambiguated (their emitted
values are exactly `~value` resp. the plain predicate); with a parsed
document, "unique" means the XPath evaluates to exactly one match.
Non-unique Android `resource-id` and `text` candidates whose target index
is known are emitted with a 0-based `.instance(index-1)` suffix - *provided
the element is in UiAutomator scope* (the counterexample shows the
out-of-scope case emits nothing). -/
theorem C3_simple_locator_uniqueness_amended :
    (∀ (ev : XPathEval) (e : JSONElement) (ctx : LocatorContext) (an : String)
       (t : Option (List Nat)) (strat v : String),
       jsIncludes (strToLower an) "uiautomator" = true →
       (strat, v) ∈ getSimpleSuggestedLocators ev e ctx an t →
       strat = "accessibility-id" →
       ∃ cd, attrOf e.attributes "content-desc" = some cd ∧ v = "~" ++ cd ∧
         (checkUniqueness ev ctx ("//*[@content-desc=\"" ++ cd ++ "\"]") t).isUnique = true) ∧
    (∀ (ev : XPathEval) (e : JSONElement) (ctx : LocatorContext) (an : String)
       (t : Option (List Nat)) (strat v : String),
       jsIncludes (strToLower an) "uiautomator" = false →
       (strat, v) ∈ getSimpleSuggestedLocators ev e ctx an t →
       ((strat = "accessibility-id" →
           ∃ nm, attrOf e.attributes "name" = some nm ∧ v = "~" ++ nm ∧
             (checkUniqueness ev ctx ("//*[@name=\"" ++ nm ++ "\"]") t).isUnique = true) ∧
        (strat = "predicate-string" →
           (∃ lb, attrOf e.attributes "label" = some lb ∧
              v = "-ios predicate string:label == \"" ++ escapeText lb ++ "\"" ∧
              (checkUniqueness ev ctx
                ("//*[@label=\"" ++ escapeText lb ++ "\"]") t).isUnique = true) ∨
           (∃ vv, attrOf e.attributes "value" = some vv ∧
              v = "-ios predicate string:value == \"" ++ escapeText vv ++ "\"" ∧
              (checkUniqueness ev ctx
                ("//*[@value=\"" ++ escapeText vv ++ "\"]") t).isUnique = true)))) ∧
    (∀ (ev : XPathEval) (d : XDoc) (ctx : LocatorContext) (xp : String)
       (t : Option (List Nat)),
       ctx.parsedDOM = some d →
       ((checkUniqueness ev ctx xp t).isUnique = true ↔ (ev d xp).length = 1)) ∧
    (∀ (ev : XPathEval) (e : JSONElement) (ctx : LocatorContext) (an : String)
       (t : Option (List Nat)) (rid : String) (n : Nat),
       jsIncludes (strToLower an) "uiautomator" = true →
       isInUiAutomatorScope ev e ctx.parsedDOM = true →
       attrOf e.attributes "resource-id" = some rid →
       isValidValueS rid = true →
       (checkUniqueness ev ctx ("//*[@resource-id=\"" ++ rid ++ "\"]") t).isUnique = false →
       (checkUniqueness ev ctx ("//*[@resource-id=\"" ++ rid ++ "\"]") t).index = some (n + 1) →
       ("id", "android=new UiSelector().resourceId(\"" ++ rid ++ "\")" ++
          ".instance(" ++ toString n ++ ")") ∈
         getSimpleSuggestedLocators ev e ctx an t) ∧
    (∀ (ev : XPathEval) (e : JSONElement) (ctx : LocatorContext) (an : String)
       (t : Option (List Nat)) (txt : String) (n : Nat),
       jsIncludes (strToLower an) "uiautomator" = true →
       isInUiAutomatorScope ev e ctx.parsedDOM = true →
       attrOf e.attributes "text" = some txt →
       isValidValueS txt = true →
       txt.length < 100 →
       (checkUniqueness ev ctx ("//*[@text=\"" ++ escapeText txt ++ "\"]") t).isUnique = false →
       (checkUniqueness ev ctx ("//*[@text=\"" ++ escapeText txt ++ "\"]") t).index = some (n + 1) →
       ("text", "android=new UiSelector().text(\"" ++ escapeText txt ++ "\")" ++
          ".instance(" ++ toString n ++ ")") ∈
         getSimpleSuggestedLocators ev e ctx an t) := by
  refine ⟨?_, ?_, ?_, ?_, ?_⟩
  · intro ev e ctx an t strat v hand hmem hstrat
    unfold getSimpleSuggestedLocators at hmem
    dsimp only at hmem
    rw [hand] at hmem
    simp only [eq_self_iff_true, if_true, List.mem_append] at hmem
    rcases hmem with (hm | hm) | hm
    · rcases mem_simpleAndroidId_scope _ _ _ _ _ _ _ hm with ⟨hs, -⟩
      rw [hstrat] at hs
      simp at hs
    · rcases mem_simpleAndroidContentDesc_unique _ _ _ _ _ _ hm with
        ⟨cd, hcd, -, huniq, -, hv⟩
      exact ⟨cd, hcd, hv, huniq⟩
    · rcases mem_simpleAndroidText_scope _ _ _ _ _ _ _ hm with ⟨hs, -⟩
      rw [hstrat] at hs
      simp at hs
  · intro ev e ctx an t strat v hand hmem
    unfold getSimpleSuggestedLocators at hmem
    dsimp only at hmem
    rw [hand] at hmem
    simp only [Bool.false_eq_true, if_false, List.mem_append] at hmem
    rcases hmem with (hm | hm) | hm
    · rcases mem_simpleIOSName_unique _ _ _ _ _ _ hm with ⟨nm, hnm, -, huniq, hs, hv⟩
      constructor
      · intro _
        exact ⟨nm, hnm, hv, huniq⟩
      · intro hps
        rw [hps] at hs
        simp at hs
    · rcases mem_simpleIOSLabel_unique _ _ _ _ _ _ hm with ⟨lb, hlb, -, huniq, hs, hv⟩
      constructor
      · intro hacc
        rw [hacc] at hs
        simp at hs
      · intro _
        exact Or.inl ⟨lb, hlb, hv, huniq⟩
    · rcases mem_simpleIOSValue_unique _ _ _ _ _ _ hm with ⟨vv, hvv, -, huniq, hs, hv⟩
      constructor
      · intro hacc
        rw [hacc] at hs
        simp at hs
      · intro _
        exact Or.inr ⟨vv, hvv, hv, huniq⟩
  · intro ev d ctx xp t hdom
    unfold checkUniqueness
    rw [hdom]
    unfold checkXPathUniqueness
    cases h0 : ((ev d xp).length == 0) with
    | true =>
      simp only [if_true]
      rw [beq_iff_eq] at h0
      simp [h0]
    | false =>
      cases h1 : ((ev d xp).length == 1) with
      | true =>
        simp only [h0, Bool.false_eq_true, if_false, if_true]
        rw [beq_iff_eq] at h1
        simp [h1]
      | false =>
        simp only [h0, h1, Bool.false_eq_true, if_false]
        rw [beq_eq_false_iff_ne] at h1
        cases t with
        | none => simp [h1]
        | some tn =>
          cases hidx : (ev d xp).findIdx? (fun p => p == tn || isSameElement d p tn) <;>
            simp [h1, hidx]
  · intro ev e ctx an t rid n hand hscope hrid hvalid hun hidx
    have hblock : ("id", "android=new UiSelector().resourceId(\"" ++ rid ++ "\")" ++
        ".instance(" ++ toString n ++ ")") ∈
        simpleAndroidId ev ctx e.attributes
          (isInUiAutomatorScope ev e ctx.parsedDOM) t := by
      unfold simpleAndroidId
      rw [hrid]
      dsimp only
      rw [hvalid]
      simp only [if_true, hun, hscope, Bool.false_and, Bool.false_eq_true, if_false, hidx]
      unfold generateIndexedUiAutomator
      simp [Nat.add_sub_cancel]
    unfold getSimpleSuggestedLocators
    dsimp only
    rw [hand]
    simp only [eq_self_iff_true, if_true, List.mem_append]
    exact Or.inl (Or.inl hblock)
  · intro ev e ctx an t txt n hand hscope htxt hvalid hlen hun hidx
    have hblock : ("text", "android=new UiSelector().text(\"" ++ escapeText txt ++ "\")" ++
        ".instance(" ++ toString n ++ ")") ∈
        simpleAndroidText ev ctx e.attributes
          (isInUiAutomatorScope ev e ctx.parsedDOM) t := by
      unfold simpleAndroidText
      rw [htxt]
      dsimp only
      rw [hvalid]
      have hl100 : decide (txt.length < 100) = true := decide_eq_true hlen
      simp only [hl100, Bool.true_and, if_true, hun, hscope,
        Bool.false_and, Bool.false_eq_true, if_false, hidx]
      unfold generateIndexedUiAutomator
      simp [Nat.add_sub_cancel]
    unfold getSimpleSuggestedLocators
    dsimp only
    rw [hand]
    simp only [eq_self_iff_true, if_true, List.mem_append]
    exact Or.inr hblock

/-- In-scope element for the C3 witness (path `1.0`, in the last
`/hierarchy` subtree of `c3Doc`). -/
def c3wElem : JSONElement := .mk [] "a" [("resource-id", "X")] "1.0"

/-- Closed witness for the amended C3: the in-scope duplicate of the
counterexample's element does receive the 0-based indexed `id` locator. -/
theorem C3_simple_locator_uniqueness_amended_witness :
    ("id", "android=new UiSelector().resourceId(\"X\")" ++
       ".instance(" ++ toString 1 ++ ")") ∈
      getSimpleSuggestedLocators evalXPRef c3wElem c3Ctx "uiautomator2" (some [1, 0]) :=
  C3_simple_locator_uniqueness_amended.2.2.2.1 evalXPRef c3wElem c3Ctx "uiautomator2"
    (some [1, 0]) "X" 1 (by decide) (by decide) (by decide) (by decide)
    (by decide) (by decide)
